import Mathlib

/-!
Verification development for the `synthetic_depression_datagen` repository.

Shallow embedding of the generation subsystem:
  * `src/synthetic_datagen/config.py` — pacing/turn-budget constants,
  * `src/synthetic_datagen/data/questionnaire.py`, `data/templates.py`,
    `data/pools.py` — fixed data pools,
  * `src/synthetic_datagen/generation/manager_logic.py` — the decision-step
    output parsers with their fallback policies,
  * `src/synthetic_datagen/generation/session_runner.py` — the session state
    machine (`run_patient_doctor_session` dialogue loop),
  * `src/synthetic_datagen/generation/profile_generation.py` and
    `generation/background_writer.py` — the profile sampler and the
    facet-selection sub-algorithm.

Modelling conventions:
  * The injected random source (`random.Random`) is modelled as an abstract
    stream of natural numbers (`Rng`): each primitive draw (`choice`,
    `randint`, one `choices(..., k=1)` call, each element picked by
    `sample`) consumes one stream value.  A weighted `choices` call whose
    weights are all positive can return any element of the population, so it
    is modelled exactly like an unweighted `choice`; every weight table in
    the embedded code paths is strictly positive.  This abstraction captures
    all possible outcome sequences of the real generator and makes the
    sampling functions deterministic in the (stream, position) state, which
    is what the determinism and coverage claims quantify over.
  * `json.loads` is an external library: a decision-step raw output string
    is represented by the result of decoding it, an `Option` of a record of
    the optional JSON fields the code reads (`none` = `JSONDecodeError`).
  * LLM calls are external text-completion collaborators; their outputs
    enter the model as oracle functions supplied per call site.
  * Python `dict` values are embedded as association lists or total
    functions, as noted at each definition.
-/

/-! ## Data: `data/questionnaire.py` and `data/templates.py` -/

/-- The nine DSM-5 screening item keys (`DSM_ITEMS` in
`data/questionnaire.py`; `DSM5_DEPRESSION_SYMPTOMS` in `data/templates.py`
is the identical list). -/
def DSM_ITEMS : List String :=
  [ "Depressed mood",
    "Loss of interest or pleasure",
    "Significant weight/appetite changes",
    "Sleep disturbances",
    "Psychomotor agitation or retardation",
    "Fatigue or loss of energy",
    "Feelings of worthlessness or excessive guilt",
    "Difficulty concentrating or indecisiveness",
    "Recurrent thoughts of death or suicide" ]

/-- Alias used by `profile_generation.py` (imported from `data/templates.py`). -/
def DSM5_DEPRESSION_SYMPTOMS : List String := DSM_ITEMS

/-! ## Config constants: `config.py` -/

/-- `NUM_DSM_ITEMS` from `config.py`. -/
def NUM_DSM_ITEMS : Nat := 9

/-- `BUFFER_TURNS` from `config.py`. -/
def BUFFER_TURNS : Nat := 5

/-- `PACING_TARGETS.get(pacing, 2.0)` from `config.py` / `session_runner.py`
line 628: target turns per DSM symptom keyed by microstyle pacing, with the
dict-lookup default of `2.0`. -/
def pacing_targets_get (pacing : String) : ℚ :=
  if pacing = "brisk" then 1.5
  else if pacing = "med" then 2.0
  else if pacing = "slow" then 2.5
  else 2.0

/-- `EXTENDED_PACING_PERSONAS` from `config.py`. -/
def EXTENDED_PACING_PERSONAS : List String :=
  ["very_warm_chatty", "trauma_informed_slow"]

/-! ## RNG model -/

/-- Abstract injected random source: a stream of naturals together with the
current read position.  Threading `Rng` values through the sampling code
mirrors how every call site consumes the single `random.Random` instance in
program order. -/
structure Rng where
  stream : Nat → Nat
  pos : Nat

/-- Consume one draw from the stream. -/
def Rng.next (g : Rng) : Nat × Rng :=
  (g.stream g.pos, { g with pos := g.pos + 1 })

/-- `rng.choice(population)`: one draw, reduced modulo the population size.
Python raises on an empty population; callers in the embedded code only use
non-empty pools, and the modulus makes every element reachable. -/
def pyChoice (l : List String) (g : Rng) : String × Rng :=
  let (v, g') := g.next
  (l.getD (v % l.length) "", g')

/-- `rng.choice` specialised to a list of naturals (used for
`rng.choice([0, 1, 2])` in `generate_depression_profile`). -/
def pyChoiceNat (l : List Nat) (g : Rng) : Nat × Rng :=
  let (v, g') := g.next
  (l.getD (v % l.length) 0, g')

/-- `rng.randint(a, b)` (inclusive bounds): one draw mapped into `[a, b]`. -/
def pyRandint (a b : Nat) (g : Rng) : Nat × Rng :=
  let (v, g') := g.next
  (a + v % (b - a + 1), g')

/-- `rng.choices(population, weights=w, k=1)[0]` for strictly positive
weights: the support is the whole population, so any element can be
returned; modelled as one modular draw.  Every weight table passed to
`choices` in the embedded code paths is strictly positive. -/
def pyChoicesPos (l : List String) (g : Rng) : String × Rng :=
  pyChoice l g

/-- `rng.sample(population, k)`: `k` distinct positions drawn without
replacement (each pick consumes one stream value and removes the picked
element).  Callers in the embedded code guarantee `k ≤ len(population)`;
if the population empties early the result is truncated. -/
def pySample : List String → Nat → Rng → List String × Rng
  | _, 0, g => ([], g)
  | l, k + 1, g =>
    if l.length = 0 then ([], g)
    else
      let (v, g₁) := g.next
      let i := v % l.length
      let (rest, g₂) := pySample (l.eraseIdx i) k g₁
      (l.getD i "" :: rest, g₂)

/-! ## `manager_logic.py`: decoded JSON records and output parsers

`json.loads` output for a doctor-manager decision: the fields the parser
reads via `.get`, each `Option` because the key may be absent (a present
JSON `null` for `doctor_instruction` is also folded to `none`, matching the
`or ""` coalescing in the source). -/

structure MgrJson where
  next_action : Option String
  reason : Option String
  doctor_instruction : Option String
  dsm_symptom_key : Option String

/-- Decoded JSON for a post-DSM doctor-manager decision. -/
structure PostJson where
  next_action : Option String
  reason : Option String
  doctor_instruction : Option String

/-- Decoded JSON for a patient-manager guidance object. -/
structure PatientJson where
  directness : Option String
  disclosure_stage : Option String
  target_length : Option String
  emotional_state : Option String
  tone_tags : Option (List String)
  key_points_to_reveal : Option (List String)
  key_points_to_avoid : Option (List String)
  patient_instruction : Option String

/-- Result record of `parse_doctor_manager_output`. -/
structure DoctorDecision where
  next_action : String
  reason : String
  doctor_instruction : String
  dsm_symptom_key : String
deriving DecidableEq

/-- Result record of `parse_post_dsm_manager_output`. -/
structure PostDecision where
  next_action : String
  reason : String
  doctor_instruction : String
deriving DecidableEq

/-- Result record of `parse_patient_manager_output`. -/
structure Guidance where
  directness : String
  disclosure_stage : String
  target_length : String
  emotional_state : String
  tone_tags : List String
  key_points_to_reveal : List String
  key_points_to_avoid : List String
  patient_instruction : String
deriving DecidableEq

/-- `parse_doctor_manager_output(manager_output, dsm_symptom_keys)` from
`manager_logic.py` lines 94-164.  `decoded` is the result of stripping the
markdown fences and running `json.loads` (`none` = `JSONDecodeError`);
`fb` models the single `random.choice` draw of the invalid-JSON fallback
(an arbitrary index, reduced modulo the pool size). -/
def parse_doctor_manager_output (decoded : Option MgrJson)
    (dsm_symptom_keys : List String) (fb : Nat) : DoctorDecision :=
  match decoded with
  | some j =>
    let next_action := j.next_action.getD "DSM"
    let reason := j.reason.getD ""
    let instr0 := j.doctor_instruction.getD ""
    let dsm_symptom_key := j.dsm_symptom_key.getD ""
    let doctor_instruction :=
      if instr0.trim = "" then
        if next_action = "DSM" then
          "Transition naturally to asking about " ++
            (if dsm_symptom_key = "" then "the next symptom area" else dsm_symptom_key) ++ "."
        else if next_action = "FOLLOW_UP" then
          "Follow up on what the patient just said."
        else
          "Connect with the patient as a person."
      else instr0
    { next_action := next_action, reason := reason,
      doctor_instruction := doctor_instruction, dsm_symptom_key := dsm_symptom_key }
  | none =>
    if dsm_symptom_keys.length ≠ 0 then
      let fallback_key := dsm_symptom_keys.getD (fb % dsm_symptom_keys.length) ""
      { next_action := "DSM",
        reason := "Doctor manager returned invalid JSON, using fallback",
        doctor_instruction := "Ask about " ++ fallback_key ++ ".",
        dsm_symptom_key := fallback_key }
    else
      { next_action := "FOLLOW_UP",
        reason := "Doctor manager returned invalid JSON, using follow-up fallback",
        doctor_instruction := "Follow up on what the patient just said.",
        dsm_symptom_key := "" }

/-- `parse_post_dsm_manager_output(manager_output)` from `manager_logic.py`
lines 250-304. -/
def parse_post_dsm_manager_output (decoded : Option PostJson) : PostDecision :=
  match decoded with
  | some j =>
    let next_action := j.next_action.getD "END"
    let reason := j.reason.getD ""
    let instr0 := j.doctor_instruction.getD ""
    let doctor_instruction :=
      if instr0.trim = "" then
        if next_action = "END" then "Wrap up the visit warmly."
        else if next_action = "FOLLOW_UP" then "Follow up on what the patient just said."
        else "Respond with empathy."
      else instr0
    { next_action := next_action, reason := reason, doctor_instruction := doctor_instruction }
  | none =>
    { next_action := "END",
      reason := "Post-DSM manager returned invalid JSON, defaulting to END",
      doctor_instruction := "Wrap up the visit warmly." }

/-- `parse_patient_manager_output(text, base_voice_style, current_disclosure_state)`
from `manager_logic.py` lines 307-397.  `verbosity` and `trust` are
`base_voice_style.get("verbosity", "moderate")` / `.get("trust", "neutral")`;
the session always passes a voice-style dict containing both keys, so they
are taken as plain strings here. -/
def parse_patient_manager_output (decoded : Option PatientJson)
    (verbosity trust current_disclosure_state : String) : Guidance :=
  let default_length :=
    if verbosity = "terse" then "SHORT"
    else if verbosity = "detailed" then "LONG"
    else "MEDIUM"
  let default_directness :=
    if trust = "guarded" then "LOW"
    else if trust = "open" then "HIGH"
    else "MED"
  let defaults : Guidance :=
    { directness := default_directness,
      disclosure_stage := current_disclosure_state,
      target_length := default_length,
      emotional_state := "neutral",
      tone_tags := ["cooperative"],
      key_points_to_reveal := [],
      key_points_to_avoid := [],
      patient_instruction :=
        "Answer in a way consistent with your profile, moderately direct, and do not overshare." }
  match decoded with
  | some p =>
    { directness := p.directness.getD defaults.directness,
      disclosure_stage := p.disclosure_stage.getD defaults.disclosure_stage,
      target_length := p.target_length.getD defaults.target_length,
      emotional_state := p.emotional_state.getD defaults.emotional_state,
      tone_tags := p.tone_tags.getD defaults.tone_tags,
      key_points_to_reveal := p.key_points_to_reveal.getD defaults.key_points_to_reveal,
      key_points_to_avoid := p.key_points_to_avoid.getD defaults.key_points_to_avoid,
      patient_instruction := p.patient_instruction.getD defaults.patient_instruction }
  | none => defaults

/-! ## `session_runner.py`: the session state machine

State-relevant fields of `run_patient_doctor_session`'s dialogue loop
(`conversation_history` texts and the decision / prompt traces are
write-only records and are omitted; `dsm_pool`, `asked_question_order`,
`doctor_turns_elapsed` and `disclosure_state` drive all control flow). -/

structure SessionState where
  dsm_pool : List String
  asked_question_order : List String
  doctor_turns_elapsed : Nat
  disclosure_state : String
deriving DecidableEq

/-- Session-frozen configuration: the turn budgets computed before the loop
(`session_runner.py` lines 626-641) plus the patient voice-style fields read
by the patient-manager parser defaults. -/
structure SessionConfig where
  max_doctor_turns : Nat
  dsm_turn_budget : Nat
  target_turns_per_symptom : ℚ
  voice_verbosity : String
  voice_trust : String

/-- Oracles for every external call the loop makes at iteration `n`
(indexed by `doctor_turns_elapsed` at the start of the iteration, which is
distinct for every iteration).  Each field is the decoded JSON of the
corresponding LLM output (`none` = parse failure); `fallback` is the stream
of `random.choice` draws used by the invalid-JSON fallback of
`parse_doctor_manager_output`.  `patientFirst` is the patient-manager call
for the pre-loop first patient turn. -/
structure Oracles where
  doctorMgr : Nat → Option MgrJson
  forceMgr : Nat → Option MgrJson
  postMgr : Nat → Option PostJson
  patientMgr : Nat → Option PatientJson
  patientFirst : Option PatientJson
  fallback : Nat → Nat

/-- The four modes of the per-iteration decision tree (spec §4.4; implicit
in the `if`/`elif` chain of `session_runner.py` lines 836-1072). -/
inductive Mode
  | POST_DSM
  | FORCE_DSM
  | LOW_TURNS
  | NORMAL
deriving DecidableEq

/-- Mode selection, evaluated fresh each iteration (`session_runner.py`
lines 831-833, 836, 951, 1050-1066).  `remaining_total_turns` is
`max_doctor_turns - doctor_turns_elapsed`, `remaining_dsm_turns` is
`max(0, dsm_turn_budget - doctor_turns_elapsed)` (natural subtraction), and
the low-turns test compares `remaining_dsm_turns / remaining_dsm_items`
(exact rational division; the branch is only reached with a non-empty pool)
against the session target. -/
def select_mode (cfg : SessionConfig) (pool_len elapsed : Nat) : Mode :=
  let remaining_total_turns := cfg.max_doctor_turns - elapsed
  let remaining_dsm_turns := cfg.dsm_turn_budget - elapsed
  if pool_len = 0 then Mode.POST_DSM
  else if remaining_total_turns ≤ pool_len then Mode.FORCE_DSM
  else if (remaining_dsm_turns : ℚ) / (pool_len : ℚ) < cfg.target_turns_per_symptom then
    Mode.LOW_TURNS
  else Mode.NORMAL

/-- The common tail of one loop iteration (`session_runner.py` lines
1161-1296): increment `doctor_turns_elapsed`, run the
`if next_action == "DSM"` pool-update block with its invalid-key FIFO
fallback (lines 1165-1179), then overwrite `disclosure_state` from the
patient-manager guidance (lines 1269-1289).  `na`/`key` are the
`next_action` / `dsm_symptom_key` produced by the mode branch. -/
def applyDecision (cfg : SessionConfig) (oz : Oracles) (n : Nat)
    (na key : String) (s : SessionState) : SessionState :=
  let s₁ : SessionState := { s with doctor_turns_elapsed := s.doctor_turns_elapsed + 1 }
  let s₂ : SessionState :=
    if na = "DSM" then
      if key ∈ s₁.dsm_pool then
        { s₁ with dsm_pool := s₁.dsm_pool.erase key,
                  asked_question_order := s₁.asked_question_order ++ [key] }
      else if s₁.dsm_pool ≠ [] then
        let k := s₁.dsm_pool.headD ""
        { s₁ with dsm_pool := s₁.dsm_pool.erase k,
                  asked_question_order := s₁.asked_question_order ++ [k] }
      else s₁
    else s₁
  let g := parse_patient_manager_output (oz.patientMgr n)
    cfg.voice_verbosity cfg.voice_trust s₂.disclosure_state
  { s₂ with disclosure_state := g.disclosure_stage }

/-- One iteration of the dialogue loop body, entered with
`doctor_turns_elapsed < max_doctor_turns`.  Returns `(s', ended)`:
`ended = true` is the POST_DSM `END` break (taken before the turn counter
increment, leaving the state unchanged).  In the POST_DSM non-END case the
Python `dsm_symptom_key` variable holds a stale value from an earlier
iteration; since the pool is empty there, the DSM block's membership test
and its `if dsm_pool:` fallback are both no-ops for any key, so the stale
key is rendered as `""`.  In FORCE_DSM mode, `parse_doctor_manager_output`
is called on the force-manager output but only its free-text fields are
read; `next_action` is hard-set to `"DSM"` and the asked key is
`dsm_pool[0]`. -/
def sessionStep (cfg : SessionConfig) (oz : Oracles) (s : SessionState) :
    SessionState × Bool :=
  let n := s.doctor_turns_elapsed
  match select_mode cfg s.dsm_pool.length n with
  | Mode.POST_DSM =>
    let d := parse_post_dsm_manager_output (oz.postMgr n)
    if d.next_action = "END" then (s, true)
    else (applyDecision cfg oz n d.next_action "" s, false)
  | Mode.FORCE_DSM =>
    (applyDecision cfg oz n "DSM" (s.dsm_pool.headD "") s, false)
  | Mode.LOW_TURNS =>
    let d := parse_doctor_manager_output (oz.doctorMgr n) s.dsm_pool (oz.fallback n)
    (applyDecision cfg oz n d.next_action d.dsm_symptom_key s, false)
  | Mode.NORMAL =>
    let d := parse_doctor_manager_output (oz.doctorMgr n) s.dsm_pool (oz.fallback n)
    (applyDecision cfg oz n d.next_action d.dsm_symptom_key s, false)

/-- The `while doctor_turns_elapsed < max_doctor_turns` loop
(`session_runner.py` line 827), with explicit fuel.  Each continuing
iteration increments the counter by exactly one, so fuel
`max_doctor_turns - doctor_turns_elapsed` makes the recursion exhaust only
when the loop guard is already false; `run_session` below supplies it. -/
def sessionLoop (cfg : SessionConfig) (oz : Oracles) :
    Nat → SessionState → SessionState
  | 0, s => s
  | fuel + 1, s =>
    if s.doctor_turns_elapsed < cfg.max_doctor_turns then
      match sessionStep cfg oz s with
      | (s', true) => s'
      | (s', false) => sessionLoop cfg oz fuel s'
    else s

/-- `init_disclosure_state(personality)` from `session_runner.py` lines
359-385. -/
def init_disclosure_state (trust verbosity : String) : String :=
  if trust = "guarded" ∨ verbosity = "terse" then "MINIMIZE"
  else if trust = "open" ∧ (verbosity = "moderate" ∨ verbosity = "detailed") then "OPEN"
  else "PARTIAL"

/-- The state-machine portion of `run_patient_doctor_session`: initialise
the disclosure state from the voice style, run the pre-loop first
patient-manager exchange (which overwrites `disclosure_state`, lines
753-766), start with the full DSM pool, an empty asked order and a zero
turn counter, and run the dialogue loop. -/
def run_session (cfg : SessionConfig) (oz : Oracles) : SessionState :=
  let ds0 := init_disclosure_state cfg.voice_trust cfg.voice_verbosity
  let g1 := parse_patient_manager_output oz.patientFirst
    cfg.voice_verbosity cfg.voice_trust ds0
  let s0 : SessionState :=
    { dsm_pool := DSM_ITEMS, asked_question_order := [],
      doctor_turns_elapsed := 0, disclosure_state := g1.disclosure_stage }
  sessionLoop cfg oz cfg.max_doctor_turns s0

/-! ## `session_runner.py` lines 626-641: the turn-budget planner -/

/-- `target_turns_per_symptom` computed before the loop: the pacing lookup
plus the extended-pacing persona adjustment (`min(base + 0.5, 3.0)`). -/
def target_turns_per_symptom (microstyle_pacing doctor_persona_id : String) : ℚ :=
  let base_target := pacing_targets_get microstyle_pacing
  if doctor_persona_id ∈ EXTENDED_PACING_PERSONAS then
    min (base_target + 0.5) 3.0
  else base_target

/-- `base_turn_budget = math.ceil(target_turns_per_symptom * NUM_DSM_ITEMS)`. -/
def base_turn_budget (microstyle_pacing doctor_persona_id : String) : ℤ :=
  ⌈target_turns_per_symptom microstyle_pacing doctor_persona_id * (NUM_DSM_ITEMS : ℚ)⌉

/-- `max_doctor_turns = base_turn_budget + BUFFER_TURNS + 1`. -/
def max_doctor_turns_plan (microstyle_pacing doctor_persona_id : String) : ℤ :=
  base_turn_budget microstyle_pacing doctor_persona_id + (BUFFER_TURNS : ℤ) + 1

/-! ## Data pools: `data/pools.py` -/

/-- `PACING_LEVELS` from `data/pools.py`. -/
def PACING_LEVELS : List String := ["LOW", "MED", "HIGH"]

/-- `GENERIC_CONTEXT_DOMAINS` from `data/pools.py`. -/
def GENERIC_CONTEXT_DOMAINS : List String :=
  [ "work/role strain", "relationships strain", "health concern",
    "self-worth/identity strain", "general stress/no clear trigger",
    "major life transition", "grief/bereavement" ]

/-- `MAX_CONTEXT_DOMAINS` from `data/pools.py`. -/
def MAX_CONTEXT_DOMAINS : Nat := 2

/-- `INTENSITY_LEVELS` from `data/pools.py`. -/
def INTENSITY_LEVELS : List String := ["LOW", "MED", "HIGH"]

/-- `EPISODE_DENSITY_LEVELS` from `data/pools.py`. -/
def EPISODE_DENSITY_LEVELS : List String := ["ULTRA_LOW", "LOW", "MED", "HIGH"]

/-- `PATIENT_HUMOR_LEVELS` from `data/pools.py`. -/
def PATIENT_HUMOR_LEVELS : List String := ["none", "occasional", "frequent"]

/-- `VOICE_STYLE_OPTIONS` from `data/pools.py`, in dict insertion order
(the order the sampling comprehension iterates). -/
def VOICE_STYLE_OPTIONS : List (String × List String) :=
  [ ("verbosity", ["terse", "moderate", "detailed"]),
    ("expressiveness", ["flat", "balanced", "intense"]),
    ("trust", ["guarded", "neutral", "open"]),
    ("intellect", ["low-functioning", "moderate-functioning", "high-functioning"]) ]

/-- `LIVING_SITUATION_POOL` from `data/pools.py`. -/
def LIVING_SITUATION_POOL : List String :=
  ["alone", "with partner", "with family", "shared housing"]

/-- `WORK_ROLE_POOL` from `data/pools.py`. -/
def WORK_ROLE_POOL : List String :=
  ["employed", "student", "caregiving role", "between roles"]

/-- `ROUTINE_STABILITY_POOL` from `data/pools.py`. -/
def ROUTINE_STABILITY_POOL : List String := ["stable routine", "variable routine"]

/-- `SUPPORT_LEVEL_POOL` from `data/pools.py`. -/
def SUPPORT_LEVEL_POOL : List String := ["low support", "moderate support", "high support"]

/-- `AGE_RANGES` from `data/pools.py`. -/
def AGE_RANGES : List String :=
  [ "16-19", "20-24", "25-29", "30-34", "35-39", "40-49", "50-59", "60-69", "70-80" ]

/-- `LIFE_FACET_CATEGORIES` from `data/pools.py` (insertion order; this is
also the key order of the `category_weights` dict built by
`select_required_facets`, since every weight update touches an existing
key). -/
def LIFE_FACET_CATEGORIES : List String :=
  [ "identity_stage", "cultural_background_orientation", "sense_of_belonging",
    "values_and_priorities", "self_view",
    "short_term_goal", "long_term_goal_or_dream", "stalled_goal", "source_of_motivation",
    "key_partner_or_love_interest", "closest_friend_or_confidant",
    "family_relationship_pattern", "work_or_school_ally", "conflictual_relationship",
    "work_or_study_pressure", "sense_of_achievement", "role_conflicts",
    "financial_pressure_or_stability", "schedule_and_time_pressure", "responsibility_load",
    "physical_health_constraints", "sleep_pattern_tendency", "existing_diagnoses_or_labels",
    "past_help_seeking", "body_image_concerns_or_comfort",
    "current_primary_stressor", "secondary_stressors", "loss_or_change",
    "unresolved_issue", "fear_or_worry_theme",
    "coping_style", "day_to_day_routines", "soothing_activities",
    "less_helpful_coping", "digital_or_social_media_habits",
    "hobbies_and_interests", "small_joys", "personal_quirks",
    "self_presentation_style", "areas_of_competence_or_pride",
    "past_difficult_period", "prior_relationship_disappointment_or_breakdown",
    "earlier_school_or_work_challenge", "family_history_of_health_or_mental_health_issues",
    "significant_move_or_transition",
    "housing_and_neighbourhood_feel", "access_to_resources", "time_and_energy_constraints",
    "explanatory_style", "beliefs_about_help_and_treatment", "beliefs_about_self_worth",
    "hopes_for_future",
    "preoccupations_or_obsessions" ]

/-- `TRAUMA_ADVERSITY_FACETS` from `data/pools.py`. -/
def TRAUMA_ADVERSITY_FACETS : List String :=
  [ "past_difficult_period", "prior_relationship_disappointment_or_breakdown",
    "family_history_of_health_or_mental_health_issues",
    "significant_move_or_transition", "loss_or_change" ]

/-! ## Templates: `data/templates.py` -/

/-- One entry of `BIG5_DEP_TEMPLATES`. -/
structure Big5Template where
  affective : String
  cognitive : String
  somatic : String
  emphasized_symptoms : List String
  specifier : String
  modifiers : List String
deriving DecidableEq

/-- `BIG5_DEP_TEMPLATES` from `data/templates.py`, as an association list
in dict insertion order (the order of `list(BIG5_DEP_TEMPLATES.keys())`).
The free-text `affective`/`cognitive`/`somatic` fields do not influence any
claim and are abbreviated to their template key. -/
def BIG5_DEP_TEMPLATES : List (String × Big5Template) :=
  [ ("NEUROTICISM_HIGH",
     { affective := "NEUROTICISM_HIGH", cognitive := "NEUROTICISM_HIGH",
       somatic := "NEUROTICISM_HIGH",
       emphasized_symptoms :=
         [ "Depressed mood", "Fatigue or loss of energy",
           "Feelings of worthlessness or excessive guilt",
           "Difficulty concentrating or indecisiveness" ],
       specifier := "MDD with anxious distress",
       modifiers := ["worry-prone", "self-blaming", "threat-sensitivity",
                     "emotionally-reactive", "ruminative"] }),
    ("EXTRAVERSION_LOW",
     { affective := "EXTRAVERSION_LOW", cognitive := "EXTRAVERSION_LOW",
       somatic := "EXTRAVERSION_LOW",
       emphasized_symptoms :=
         [ "Loss of interest or pleasure", "Psychomotor agitation or retardation",
           "Fatigue or loss of energy" ],
       specifier := "Persistent depressive disorder-like",
       modifiers := ["socially-withdrawn", "pleasure-unresponsive", "passive",
                     "low-initiative", "isolating"] }),
    ("CONSCIENTIOUSNESS_HIGH",
     { affective := "CONSCIENTIOUSNESS_HIGH", cognitive := "CONSCIENTIOUSNESS_HIGH",
       somatic := "CONSCIENTIOUSNESS_HIGH",
       emphasized_symptoms :=
         [ "Significant weight/appetite changes", "Sleep disturbances",
           "Fatigue or loss of energy", "Feelings of worthlessness or excessive guilt" ],
       specifier := "Melancholic features",
       modifiers := ["perfectionistic", "rigidly-self-critical", "duty-focused",
                     "overwork-prone", "failure-intolerant"] }),
    ("CONSCIENTIOUSNESS_LOW",
     { affective := "CONSCIENTIOUSNESS_LOW", cognitive := "CONSCIENTIOUSNESS_LOW",
       somatic := "CONSCIENTIOUSNESS_LOW",
       emphasized_symptoms :=
         [ "Psychomotor agitation or retardation", "Fatigue or loss of energy",
           "Difficulty concentrating or indecisiveness" ],
       specifier := "With functional impairment",
       modifiers := ["disorganized", "unmotivated", "self-care-neglecting",
                     "task-avoidant", "forgetful"] }),
    ("AGREEABLENESS_HIGH",
     { affective := "AGREEABLENESS_HIGH", cognitive := "AGREEABLENESS_HIGH",
       somatic := "AGREEABLENESS_HIGH",
       emphasized_symptoms :=
         [ "Depressed mood", "Sleep disturbances", "Fatigue or loss of energy",
           "Feelings of worthlessness or excessive guilt" ],
       specifier := "Anxious distress",
       modifiers := ["people-pleasing", "over-responsible-for-others",
                     "self-sacrificing", "conflict-avoidant", "guilt-prone"] }),
    ("AGREEABLENESS_LOW",
     { affective := "AGREEABLENESS_LOW", cognitive := "AGREEABLENESS_LOW",
       somatic := "AGREEABLENESS_LOW",
       emphasized_symptoms :=
         [ "Depressed mood", "Psychomotor agitation or retardation",
           "Sleep disturbances" ],
       specifier := "Mixed features",
       modifiers := ["irritable", "blame-externalizing", "rejection-sensitive",
                     "defensively-hostile", "interpersonally-strained"] }),
    ("OPENNESS_HIGH",
     { affective := "OPENNESS_HIGH", cognitive := "OPENNESS_HIGH",
       somatic := "OPENNESS_HIGH",
       emphasized_symptoms :=
         [ "Depressed mood", "Loss of interest or pleasure",
           "Recurrent thoughts of death or suicide" ],
       specifier := "Mild MDD / adjustment-like",
       modifiers := ["existentially-focused", "meaning-seeking", "introspective",
                     "metaphorically-expressive", "philosophically-ruminating"] }),
    ("OPENNESS_LOW",
     { affective := "OPENNESS_LOW", cognitive := "OPENNESS_LOW",
       somatic := "OPENNESS_LOW",
       emphasized_symptoms :=
         [ "Significant weight/appetite changes", "Sleep disturbances",
           "Fatigue or loss of energy" ],
       specifier := "Somatic-dominant style",
       modifiers := ["somatically-focused", "insight-limited", "mood-distress-denying",
                     "literal-thinking", "body-complaint-oriented"] }) ]

/-- Dict lookup `BIG5_DEP_TEMPLATES[template_id]`; the default is never
reached on valid ids. -/
def big5_template_get (template_id : String) : Big5Template :=
  ((BIG5_DEP_TEMPLATES.find? (fun p => p.fst = template_id)).map Prod.snd).getD
    { affective := "", cognitive := "", somatic := "",
      emphasized_symptoms := [], specifier := "", modifiers := [] }

/-! ## `profile_generation.py`: depression profile generation

The per-symptom frequency draw for an emphasized symptom, keyed by its
sampled intensity level (the identical three-way `rng.choices` block
appears in both the ULTRA_LOW and the standard branch of
`generate_depression_profile`; weights `[5,4,1]` / `[2,8]` / `[5,4,1]` are
all strictly positive). -/
def sample_emph_freq (level : String) (g : Rng) : String × Rng :=
  if level = "LOW" then pyChoicesPos ["RARE", "SOME", "OFTEN"] g
  else if level = "HIGH" then pyChoicesPos ["SOME", "OFTEN"] g
  else pyChoicesPos ["SOME", "OFTEN", "RARE"] g

/-- The `for symptom in selected_symptoms` assignment loop of the ULTRA_LOW
branch (`profile_generation.py` lines 82-102): each selected symptom gets a
non-NONE frequency (emphasized ones by intensity, non-emphasized ones from
the lighter `[5,3,2]`-weighted pool), overwriting the all-NONE profile. -/
def ultra_low_assign (emphasized : List String) (emph_intensity : String → String) :
    List String → (String → String) → Rng → (String → String) × Rng
  | [], prof, g => (prof, g)
  | s :: rest, prof, g =>
    let (v, g') :=
      if s ∈ emphasized then sample_emph_freq (emph_intensity s) g
      else pyChoicesPos ["RARE", "SOME", "OFTEN"] g
    ultra_low_assign emphasized emph_intensity rest (fun x => if x = s then v else prof x) g'

/-- The `for symptom in DSM5_DEPRESSION_SYMPTOMS` loop of the standard
density branch (`profile_generation.py` lines 113-138): emphasized symptoms
by intensity, `extra_high` symptoms from the `[2,5,3]`-weighted
RARE/SOME/OFTEN pool, all others from the density-weighted NONE/RARE/SOME
pool (density weight tables `(7,2,1)`, `(3,3,4)`, `(5,3,2)` are all
strictly positive, so the draw support does not depend on the density). -/
def standard_assign (emphasized extra_high : List String) (emph_intensity : String → String) :
    List String → (String → String) → Rng → (String → String) × Rng
  | [], prof, g => (prof, g)
  | s :: rest, prof, g =>
    let (v, g') :=
      if s ∈ emphasized then sample_emph_freq (emph_intensity s) g
      else if s ∈ extra_high then pyChoicesPos ["RARE", "SOME", "OFTEN"] g
      else pyChoicesPos ["NONE", "RARE", "SOME"] g
    standard_assign emphasized extra_high emph_intensity rest
      (fun x => if x = s then v else prof x) g'

/-- `generate_depression_profile(rng, template, episode_density,
emph_intensity, extra_high)` from `profile_generation.py` lines 27-140.
The returned dict has exactly the nine DSM keys; it is embedded as a total
function whose value is only meaningful at those keys (the all-NONE base
also serves as the standard branch's initial empty dict, which that branch
fully overwrites).  `emph_intensity` is the intensity dict as a total
function (the session always supplies every emphasized key); Python's
`list(emphasized)` set ordering is represented by the template's list
order, which reaches the same outcome set under the stream abstraction. -/
def generate_depression_profile (g : Rng) (template : Big5Template)
    (episode_density : String) (emph_intensity : String → String)
    (extra_high : List String) : (String → String) × Rng :=
  let emphasized := template.emphasized_symptoms
  if episode_density = "ULTRA_LOW" then
    let (target_symptom_count, g₁) := pyChoiceNat [0, 1, 2] g
    let non_emphasized := DSM5_DEPRESSION_SYMPTOMS.filter (fun s => s ∉ emphasized)
    let candidate_pool :=
      if emphasized.length < target_symptom_count then emphasized ++ non_emphasized
      else emphasized
    let (selected_symptoms, g₂) :=
      if 0 < target_symptom_count then
        pySample candidate_pool (min target_symptom_count candidate_pool.length) g₁
      else ([], g₁)
    ultra_low_assign emphasized emph_intensity selected_symptoms (fun _ => "NONE") g₂
  else
    standard_assign emphasized extra_high emph_intensity
      DSM5_DEPRESSION_SYMPTOMS (fun _ => "NONE") g

/-! ## `background_writer.py`: severity and facet selection -/

/-- `compute_symptom_severity(depression_profile)` from
`background_writer.py` lines 36-67, with the profile read at the nine DSM
keys (its `.values()`). -/
def compute_symptom_severity (depression_profile : String → String) : String :=
  let significant_count := DSM5_DEPRESSION_SYMPTOMS.countP
    (fun s => depression_profile s == "SOME" || depression_profile s == "OFTEN")
  let often_count := DSM5_DEPRESSION_SYMPTOMS.countP (fun s => depression_profile s == "OFTEN")
  if significant_count = 0 then "minimal"
  else if significant_count ≤ 2 ∨ (significant_count ≤ 4 ∧ often_count = 0) then "mild"
  else if significant_count ≤ 5 ∨ often_count ≤ 3 then "moderate"
  else "severe"

/-- The `while len(selected) < num_facets and attempts < 100` loop of
`select_required_facets` (`background_writer.py` lines 157-171), with the
remaining attempt budget as fuel.  Duplicates are skipped; a trauma
category is admitted only while fewer than two are already selected. -/
def select_facets_loop (num_facets : Nat) :
    Nat → Nat → List String → Rng → List String × Rng
  | 0, _, selected, g => (selected, g)
  | fuel + 1, trauma_in_required, selected, g =>
    if selected.length < num_facets then
      let (candidate, g') := pyChoicesPos LIFE_FACET_CATEGORIES g
      if candidate ∈ selected then
        select_facets_loop num_facets fuel trauma_in_required selected g'
      else if candidate ∈ TRAUMA_ADVERSITY_FACETS then
        if 2 ≤ trauma_in_required then
          select_facets_loop num_facets fuel trauma_in_required selected g'
        else
          select_facets_loop num_facets fuel (trauma_in_required + 1)
            (selected ++ [candidate]) g'
      else
        select_facets_loop num_facets fuel trauma_in_required (selected ++ [candidate]) g'
    else (selected, g)

/-- `select_required_facets(rng, context_domains, depression_profile,
severity)` from `background_writer.py` lines 70-173.  The
`category_weights` dict only ever updates keys already present in
`LIFE_FACET_CATEGORIES` and every resulting weight is strictly positive
(base 1.0, boosts 1.5-4.0, mild-case trauma damping 0.5), so the candidate
population of each weighted draw is `LIFE_FACET_CATEGORIES` in its original
key order for every `(context_domains, severity)`; those arguments shape
only the weights and are kept for interface fidelity. -/
def select_required_facets (g : Rng) (context_domains : List String)
    (depression_profile : String → String) (severity : String) : List String × Rng :=
  let (num_facets, g₁) := pyRandint 5 8 g
  select_facets_loop num_facets 100 0 [] g₁

/-- `call_background_writer(rng, personality, depression_profile,
basic_background, context_domains, age_range)` from `background_writer.py`
lines 313-412, reduced to its profile-relevant effect: compute the
severity, consume the rng through `select_required_facets`, then obtain the
(possibly unparseable, hence `Option`) background from the external
writer.  `bgOracle` absorbs prompt assembly, the LLM call and
`parse_background_writer_output`; the rng-dependent component of the prompt
is the required-facet list, the remaining prompt fields are fixed for the
invocation and absorbed into the oracle. -/
def call_background_writer (bgOracle : List String → Option String) (g : Rng)
    (depression_profile : String → String) (context_domains : List String) :
    Option String × Rng :=
  let severity := compute_symptom_severity depression_profile
  let (required_facets, g₁) :=
    select_required_facets g context_domains depression_profile severity
  (bgOracle required_facets, g₁)

/-! ## `profile_generation.py`: `sample_patient_profile` -/

/-- The sampled voice style (`VOICE_STYLE_OPTIONS` dimensions plus the
separately weighted `humor` dimension). -/
structure VoiceStyle where
  verbosity : String
  expressiveness : String
  trust : String
  intellect : String
  humor : String
deriving DecidableEq

/-- The `forced` overrides dict of `sample_patient_profile`: each key that
may be pinned, `none` meaning the key is absent and the weighted-sampling
rule applies.  `voice_style_overrides` is the Python `voice_style_partial`
key (a sparse dimension → value map). -/
structure Forced where
  template_id : Option String := none
  modifiers : Option (List String) := none
  pacing : Option String := none
  context_domains : Option (List String) := none
  episode_density : Option String := none
  voice_style : Option VoiceStyle := none
  voice_style_overrides : Option (List (String × String)) := none
  personal_background : Option (List (String × String)) := none
  age_range : Option String := none
  emph_intensity : Option (String → String) := none
  extra_elevated : Option (List String) := none
  skip_life_background : Bool := false

/-- The complete sampled profile returned by `sample_patient_profile`
(the `personality` dict fields flattened; `life_background` is the opaque
parsed background, `none` on parse failure or when skipped). -/
structure PatientProfile where
  template_id : String
  template : Big5Template
  modifiers : List String
  pacing : String
  context_domains : List String
  episode_density : String
  voice_style : VoiceStyle
  personal_background : List (String × String)
  age_range : String
  emph_intensity : String → String
  extra_elevated : List String
  depression_profile : String → String
  life_background : Option String

/-- Template selection (`profile_generation.py` lines 171-175):
`rng.choice(list(BIG5_DEP_TEMPLATES.keys()))` unless forced. -/
def sample_template_step (forced : Forced) (g : Rng) : String × Rng :=
  match forced.template_id with
  | some t => (t, g)
  | none => pyChoice (BIG5_DEP_TEMPLATES.map Prod.fst) g

/-- Modifier sampling (lines 189-193):
`rng.sample(template["modifiers"], k=rng.randint(0, 2))` unless forced
(the `randint` argument is evaluated before `sample` consumes the rng). -/
def sample_modifiers_step (forced : Forced) (template : Big5Template) (g : Rng) :
    List String × Rng :=
  match forced.modifiers with
  | some m => (m, g)
  | none =>
    let (k, g₁) := pyRandint 0 2 g
    pySample template.modifiers k g₁

/-- Pacing sampling (lines 195-200): `rng.choice(PACING_LEVELS)` unless
forced. -/
def sample_pacing_step (forced : Forced) (g : Rng) : String × Rng :=
  match forced.pacing with
  | some p => (p, g)
  | none => pyChoice PACING_LEVELS g

/-- Context-domain sampling (lines 202-208):
`rng.sample(GENERIC_CONTEXT_DOMAINS, k=rng.randint(0, MAX_CONTEXT_DOMAINS))`
unless forced. -/
def sample_context_domains_step (forced : Forced) (g : Rng) : List String × Rng :=
  match forced.context_domains with
  | some c => (c, g)
  | none =>
    let (num_domains, g₁) := pyRandint 0 MAX_CONTEXT_DOMAINS g
    pySample GENERIC_CONTEXT_DOMAINS num_domains g₁

/-- Episode-density sampling (lines 210-217): one weighted draw over
`EPISODE_DENSITY_LEVELS` (weights `[1, 2.5, 4.5, 2]`, strictly positive)
unless forced. -/
def sample_episode_density_step (forced : Forced) (g : Rng) : String × Rng :=
  match forced.episode_density with
  | some d => (d, g)
  | none => pyChoicesPos EPISODE_DENSITY_LEVELS g

/-- One `voice_style_partial` override entry applied to the style dict
(lines 234-237); an unrecognised dimension would create a dict key never
read downstream and leaves the structure unchanged here. -/
def apply_voice_override (vs : VoiceStyle) (dim value : String) : VoiceStyle :=
  if dim = "verbosity" then { vs with verbosity := value }
  else if dim = "expressiveness" then { vs with expressiveness := value }
  else if dim = "trust" then { vs with trust := value }
  else if dim = "intellect" then { vs with intellect := value }
  else if dim = "humor" then { vs with humor := value }
  else vs

/-- Voice-style sampling (lines 219-239): the four `VOICE_STYLE_OPTIONS`
dimensions drawn independently in dict order, then the weighted `humor`
draw (weights `[6, 3, 1]`), unless the whole style is forced; the sparse
`voice_style_partial` overrides are applied on top in either case. -/
def sample_voice_style_step (forced : Forced) (g : Rng) : VoiceStyle × Rng :=
  let (vs, g₁) :=
    match forced.voice_style with
    | some v => (v, g)
    | none =>
      let (verbosity, ga) := pyChoice ["terse", "moderate", "detailed"] g
      let (expressiveness, gb) := pyChoice ["flat", "balanced", "intense"] ga
      let (trust, gc) := pyChoice ["guarded", "neutral", "open"] gb
      let (intellect, gd) :=
        pyChoice ["low-functioning", "moderate-functioning", "high-functioning"] gc
      let (humor, ge) := pyChoicesPos PATIENT_HUMOR_LEVELS gd
      ({ verbosity := verbosity, expressiveness := expressiveness, trust := trust,
         intellect := intellect, humor := humor }, ge)
  match forced.voice_style_overrides with
  | some ov => (ov.foldl (fun acc p => apply_voice_override acc p.fst p.snd) vs, g₁)
  | none => (vs, g₁)

/-- Personal-background sampling (lines 241-257): `work_role` drawn first,
then the four-field dict in literal order, then
`rng.sample(keys, k=rng.randint(1, 2))` dropped fields; for a forced
background, `work_role` is `personal_background.get("work_role",
"employed")`.  Returns the retained fields and the work role the age step
conditions on. -/
def sample_personal_background_step (forced : Forced) (g : Rng) :
    (List (String × String) × String) × Rng :=
  match forced.personal_background with
  | some pb =>
    (⟨pb, ((pb.find? (fun p => p.fst = "work_role")).map Prod.snd).getD "employed"⟩, g)
  | none =>
    let (work_role, g₁) := pyChoice WORK_ROLE_POOL g
    let (living_situation, g₂) := pyChoice LIVING_SITUATION_POOL g₁
    let (routine_stability, g₃) := pyChoice ROUTINE_STABILITY_POOL g₂
    let (support_level, g₄) := pyChoice SUPPORT_LEVEL_POOL g₃
    let pb0 : List (String × String) :=
      [ ("living_situation", living_situation), ("work_role", work_role),
        ("routine_stability", routine_stability), ("support_level", support_level) ]
    let (drop_count, g₅) := pyRandint 1 2 g₄
    let (drop_keys, g₆) := pySample (pb0.map Prod.fst) drop_count g₅
    (⟨pb0.filter (fun p => p.fst ∉ drop_keys), work_role⟩, g₆)

/-- Age-range sampling (lines 259-266): one weighted draw over
`AGE_RANGES` with `AGE_WEIGHTS_BY_ROLE.get(work_role, AGE_DEFAULT_WEIGHTS)`
unless forced; every role's weight table (and the default) is strictly
positive, so the draw support is `AGE_RANGES` for every role. -/
def sample_age_range_step (forced : Forced) (work_role : String) (g : Rng) :
    String × Rng :=
  match forced.age_range with
  | some a => (a, g)
  | none =>
    let _ := work_role
    pyChoicesPos AGE_RANGES g

/-- The `for sym in emphasized` intensity loop (lines 273-277): one
weighted `INTENSITY_LEVELS` draw (weights `[3, 5, 2]`) per emphasized
symptom, accumulated as updates of a total map whose base value is only
a placeholder (the map is read only at emphasized keys downstream). -/
def sample_intensities : List String → (String → String) → Rng → (String → String) × Rng
  | [], acc, g => (acc, g)
  | s :: rest, acc, g =>
    let (lvl, g') := pyChoicesPos INTENSITY_LEVELS g
    sample_intensities rest (fun x => if x = s then lvl else acc x) g'

/-- Emphasized-symptom intensity sampling (lines 268-278), unless forced.
Python iterates the `emphasized` set; the template's list order stands in
for the set iteration order under the stream abstraction. -/
def sample_emph_intensity_step (forced : Forced) (emphasized : List String) (g : Rng) :
    (String → String) × Rng :=
  match forced.emph_intensity with
  | some ei => (ei, g)
  | none => sample_intensities emphasized (fun _ => "MED") g

/-- Extra-elevated selection (lines 280-286):
`rng.sample(non_emphasized, k=rng.randint(0, 1))` over the complement of
the emphasized set, unless forced. -/
def sample_extra_elevated_step (forced : Forced) (emphasized : List String) (g : Rng) :
    List String × Rng :=
  match forced.extra_elevated with
  | some x => (x, g)
  | none =>
    let non_emphasized := DSM5_DEPRESSION_SYMPTOMS.filter (fun s => s ∉ emphasized)
    let (k, g₁) := pyRandint 0 1 g
    pySample non_emphasized k g₁

/-- `sample_patient_profile(rng, forced)` from `profile_generation.py`
lines 143-316, with the background-writer LLM abstracted as `bgOracle`.
The steps consume the single injected rng strictly in source order:
template, modifiers, pacing, context domains, episode density, voice
style, personal background, age range, emphasized-symptom intensity,
extra-elevated symptom, frequency profile, then the background writer's
facet selection. -/
def sample_patient_profile (bgOracle : List String → Option String)
    (forced : Forced) (g : Rng) : PatientProfile × Rng :=
  let (template_id, g₁) := sample_template_step forced g
  let template := big5_template_get template_id
  let (modifiers, g₂) := sample_modifiers_step forced template g₁
  let (pacing, g₃) := sample_pacing_step forced g₂
  let (context_domains, g₄) := sample_context_domains_step forced g₃
  let (episode_density, g₅) := sample_episode_density_step forced g₄
  let (voice_style, g₆) := sample_voice_style_step forced g₅
  let (pbw, g₇) := sample_personal_background_step forced g₆
  let (age_range, g₈) := sample_age_range_step forced pbw.snd g₇
  let emphasized := template.emphasized_symptoms
  let (emph_intensity, g₉) := sample_emph_intensity_step forced emphasized g₈
  let (extra_high, g₁₀) := sample_extra_elevated_step forced emphasized g₉
  let (depression_profile, g₁₁) :=
    generate_depression_profile g₁₀ template episode_density emph_intensity extra_high
  let (life_background, g₁₂) :=
    if forced.skip_life_background then (none, g₁₁)
    else call_background_writer bgOracle g₁₁ depression_profile context_domains
  ({ template_id := template_id, template := template, modifiers := modifiers,
     pacing := pacing, context_domains := context_domains,
     episode_density := episode_density, voice_style := voice_style,
     personal_background := pbw.fst, age_range := age_range,
     emph_intensity := emph_intensity, extra_elevated := extra_high,
     depression_profile := depression_profile,
     life_background := life_background }, g₁₂)

/-- Modelled from the spec: the profile sampler as the sequential
composition "template → modifiers → pacing → context domains → episode
density → voice style → personal background tags → age range →
emphasized-symptom intensity → extra-elevated symptom → frequency
profile", each step threading the single shared rng, as §4.1 of the spec
states the composition order.  Compared with `sample_patient_profile`
(translated from the source) by the C6 theorem. -/
def sample_profile_spec_order (bgOracle : List String → Option String)
    (forced : Forced) (g : Rng) : PatientProfile × Rng :=
  let (template_id, g₁) := sample_template_step forced g
  let template := big5_template_get template_id
  let (modifiers, g₂) := sample_modifiers_step forced template g₁
  let (pacing, g₃) := sample_pacing_step forced g₂
  let (context_domains, g₄) := sample_context_domains_step forced g₃
  let (episode_density, g₅) := sample_episode_density_step forced g₄
  let (voice_style, g₆) := sample_voice_style_step forced g₅
  let (pbw, g₇) := sample_personal_background_step forced g₆
  let (age_range, g₈) := sample_age_range_step forced pbw.snd g₇
  let emphasized := template.emphasized_symptoms
  let (emph_intensity, g₉) := sample_emph_intensity_step forced emphasized g₈
  let (extra_high, g₁₀) := sample_extra_elevated_step forced emphasized g₉
  let (depression_profile, g₁₁) :=
    generate_depression_profile g₁₀ template episode_density emph_intensity extra_high
  let (life_background, g₁₂) :=
    if forced.skip_life_background then (none, g₁₁)
    else call_background_writer bgOracle g₁₁ depression_profile context_domains
  ({ template_id := template_id, template := template, modifiers := modifiers,
     pacing := pacing, context_domains := context_domains,
     episode_density := episode_density, voice_style := voice_style,
     personal_background := pbw.fst, age_range := age_range,
     emph_intensity := emph_intensity, extra_elevated := extra_high,
     depression_profile := depression_profile,
     life_background := life_background }, g₁₂)

/-! ## `session_runner.py` lines 549-579: the deterministic agent id -/

/-- Python's `sep.join(parts)`. -/
def pyJoin (sep : String) : List String → String
  | [] => ""
  | [x] => x
  | x :: y :: rest => x ++ sep ++ pyJoin sep (y :: rest)

/-- The sampled profile, persona and microstyle fields the agent id is
derived from (`session_runner.py` lines 551-575); `freq` is the
depression-profile lookup over the nine DSM keys. -/
structure AgentFields where
  template_id : String
  p_pacing : String
  density : String
  age : String
  trust : String
  verbosity : String
  expressiveness : String
  intellect : String
  p_humor : String
  modifiers : List String
  persona : String
  d_warmth : String
  d_direct : String
  d_pacing : String
  d_humor : String
  d_animation : String
  freq : String → String

/-- `profile_key_parts` (lines 553-575): the fixed-format field renderings,
with `MODS` the comma-join of the sorted modifier list and one
`symptom=frequency` part per DSM key in sorted key order. -/
def profile_key_parts (f : AgentFields) : List String :=
  [ "TEMPLATE=" ++ f.template_id,
    "P_PACING=" ++ f.p_pacing,
    "DENSITY=" ++ f.density,
    "AGE=" ++ f.age,
    "TRUST=" ++ f.trust,
    "VERBOSITY=" ++ f.verbosity,
    "EXPRESSIVENESS=" ++ f.expressiveness,
    "INTELLECT=" ++ f.intellect,
    "P_HUMOR=" ++ f.p_humor,
    "MODS=" ++ pyJoin "," (f.modifiers.insertionSort (· ≤ ·)),
    "PERSONA=" ++ f.persona,
    "D_WARMTH=" ++ f.d_warmth,
    "D_DIRECT=" ++ f.d_direct,
    "D_PACING=" ++ f.d_pacing,
    "D_HUMOR=" ++ f.d_humor,
    "D_ANIMATION=" ++ f.d_animation ]
  ++ (DSM_ITEMS.insertionSort (· ≤ ·)).map (fun s => s ++ "=" ++ f.freq s)

/-- `profile_key = "|".join(profile_key_parts)` (line 577). -/
def agent_key (f : AgentFields) : String :=
  pyJoin "|" (profile_key_parts f)

/-- `agent_id = "AGENT_" + sha256(profile_key)[:16]` (lines 578-579), with
the truncated SHA-256 hex digest abstracted as the external hash `h`. -/
def agent_id (h : String → String) (f : AgentFields) : String :=
  "AGENT_" ++ h (agent_key f)

/-- The key fields `run_patient_doctor_session` extracts from the sampled
profile and the session's doctor persona and microstyle when it builds
`profile_key_parts` (lines 549-575): `template_id`, the personality's
`PACING`, `EPISODE_DENSITY` and `AGE_RANGE`, the five voice-style
dimensions, the modifier list, the persona id, the five microstyle
sliders, and the symptom frequencies — and nothing else.  In particular
the sampled `CONTEXT_DOMAINS` and `PERSONAL_BACKGROUND` profile fields do
not flow into the key. -/
def agent_fields_of_profile (p : PatientProfile) (doctor_persona_id : String)
    (d_warmth d_direct d_pacing d_humor d_animation : String) : AgentFields :=
  { template_id := p.template_id,
    p_pacing := p.pacing,
    density := p.episode_density,
    age := p.age_range,
    trust := p.voice_style.trust,
    verbosity := p.voice_style.verbosity,
    expressiveness := p.voice_style.expressiveness,
    intellect := p.voice_style.intellect,
    p_humor := p.voice_style.humor,
    modifiers := p.modifiers,
    persona := doctor_persona_id,
    d_warmth := d_warmth,
    d_direct := d_direct,
    d_pacing := d_pacing,
    d_humor := d_humor,
    d_animation := d_animation,
    freq := p.depression_profile }

/-- A modifier string as drawn from the template pools: non-empty and
comma-free, so that the comma-join of the sorted modifier list determines
the list. -/
def ModifierLike (m : String) : Prop :=
  m ≠ "" ∧ ',' ∉ m.data

/-- A change of exactly one sampled field between two `AgentFields`
records: one scalar field is replaced by a different value (all other
fields untouched), or the modifier multiset changes (with pool-shaped,
i.e. non-empty comma-free, modifier strings), or the frequency of exactly
one DSM symptom changes. -/
def SingleFieldChange (f₁ f₂ : AgentFields) : Prop :=
  (∃ v, f₂ = { f₁ with template_id := v } ∧ v ≠ f₁.template_id) ∨
  (∃ v, f₂ = { f₁ with p_pacing := v } ∧ v ≠ f₁.p_pacing) ∨
  (∃ v, f₂ = { f₁ with density := v } ∧ v ≠ f₁.density) ∨
  (∃ v, f₂ = { f₁ with age := v } ∧ v ≠ f₁.age) ∨
  (∃ v, f₂ = { f₁ with trust := v } ∧ v ≠ f₁.trust) ∨
  (∃ v, f₂ = { f₁ with verbosity := v } ∧ v ≠ f₁.verbosity) ∨
  (∃ v, f₂ = { f₁ with expressiveness := v } ∧ v ≠ f₁.expressiveness) ∨
  (∃ v, f₂ = { f₁ with intellect := v } ∧ v ≠ f₁.intellect) ∨
  (∃ v, f₂ = { f₁ with p_humor := v } ∧ v ≠ f₁.p_humor) ∨
  (∃ v, f₂ = { f₁ with persona := v } ∧ v ≠ f₁.persona) ∨
  (∃ v, f₂ = { f₁ with d_warmth := v } ∧ v ≠ f₁.d_warmth) ∨
  (∃ v, f₂ = { f₁ with d_direct := v } ∧ v ≠ f₁.d_direct) ∨
  (∃ v, f₂ = { f₁ with d_pacing := v } ∧ v ≠ f₁.d_pacing) ∨
  (∃ v, f₂ = { f₁ with d_humor := v } ∧ v ≠ f₁.d_humor) ∨
  (∃ v, f₂ = { f₁ with d_animation := v } ∧ v ≠ f₁.d_animation) ∨
  (∃ v, f₂ = { f₁ with modifiers := v } ∧
     (∀ m ∈ f₁.modifiers, ModifierLike m) ∧ (∀ m ∈ v, ModifierLike m) ∧
     v.insertionSort (· ≤ ·) ≠ f₁.modifiers.insertionSort (· ≤ ·)) ∨
  (∃ fr s, f₂ = { f₁ with freq := fr } ∧ s ∈ DSM_ITEMS ∧ fr s ≠ f₁.freq s ∧
     ∀ t ∈ DSM_ITEMS, t ≠ s → fr t = f₁.freq t)

/-! ## Helper lemmas -/

theorem getD_mod_mem {α : Type} (l : List α) (d : α) (i : Nat) (h : l ≠ []) :
    l.getD (i % l.length) d ∈ l := by
  have hlen : 0 < l.length := List.length_pos.mpr h
  have hm : i % l.length < l.length := Nat.mod_lt _ hlen
  rw [List.getD_eq_getElem l d hm]
  exact List.getElem_mem _

theorem headD_mem (l : List String) (h : l ≠ []) : l.headD "" ∈ l := by
  cases l with
  | nil => exact absurd rfl h
  | cons x t => exact List.mem_cons_self x t

theorem string_append_right_cancel {a b t : String} (h : a ++ t = b ++ t) : a = b := by
  apply String.ext
  have hd := congrArg String.data h
  simp only [String.data_append] at hd
  exact List.append_cancel_right hd

theorem string_append_left_cancel {t a b : String} (h : t ++ a = t ++ b) : a = b := by
  apply String.ext
  have hd := congrArg String.data h
  simp only [String.data_append] at hd
  exact List.append_cancel_left hd

theorem string_append_left_ne {t a b : String} (h : a ≠ b) : t ++ a ≠ t ++ b :=
  fun hc => h (string_append_left_cancel hc)

theorem pyJoin_cons (sep x : String) (l : List String) (h : l ≠ []) :
    pyJoin sep (x :: l) = x ++ sep ++ pyJoin sep l := by
  cases l with
  | nil => exact absurd rfl h
  | cons y t => rfl

theorem pyJoin_single_diff (sep a b : String) (hab : a ≠ b) :
    ∀ (pre post : List String),
      pyJoin sep (pre ++ a :: post) ≠ pyJoin sep (pre ++ b :: post) := by
  intro pre
  induction pre with
  | nil =>
    intro post
    cases post with
    | nil => simpa [pyJoin] using hab
    | cons p ps =>
      intro hc
      rw [List.nil_append, List.nil_append, pyJoin_cons sep a (p :: ps) (by simp),
          pyJoin_cons sep b (p :: ps) (by simp)] at hc
      exact hab (string_append_right_cancel (string_append_right_cancel hc))
  | cons q pre' ih =>
    intro post hc
    rw [List.cons_append, List.cons_append,
        pyJoin_cons sep q (pre' ++ a :: post) (by simp),
        pyJoin_cons sep q (pre' ++ b :: post) (by simp)] at hc
    exact ih post (string_append_left_cancel hc)

/-! ## C3: turn-budget planner -/

/-- C3: the turn-budget planner formula.  `target_turns_per_symptom` is 2.5
for slow, 2.0 for med, 1.5 for brisk pacing for non-extended personas; for
personas in the extended-pacing set it is the base plus 0.5 capped at 3.0;
`max_doctor_turns` is `ceil(target * 9) + 5 + 1`, which is 24 for med
pacing with a non-extended persona.  (Both values enter the session as the
frozen `SessionConfig` the loop is parameterised over, so they are computed
once and never recomputed.) -/
theorem turn_budget_planner_formula :
    (∀ persona, persona ∉ EXTENDED_PACING_PERSONAS →
        target_turns_per_symptom "slow" persona = 2.5 ∧
        target_turns_per_symptom "med" persona = 2.0 ∧
        target_turns_per_symptom "brisk" persona = 1.5) ∧
    (∀ pacing persona, persona ∈ EXTENDED_PACING_PERSONAS →
        target_turns_per_symptom pacing persona =
          min (pacing_targets_get pacing + 0.5) 3.0) ∧
    (∀ pacing persona,
        max_doctor_turns_plan pacing persona =
          ⌈target_turns_per_symptom pacing persona * 9⌉ + 5 + 1) ∧
    max_doctor_turns_plan "med" "warm_validating" = 24 := by
  refine ⟨?_, ?_, ?_, ?_⟩
  · intro persona h
    simp [target_turns_per_symptom, pacing_targets_get, h]
  · intro pacing persona h
    simp [target_turns_per_symptom, h]
  · intro pacing persona
    simp [max_doctor_turns_plan, base_turn_budget, NUM_DSM_ITEMS, BUFFER_TURNS]
  · have hm : ("warm_validating" : String) ∉ EXTENDED_PACING_PERSONAS := by decide
    simp [max_doctor_turns_plan, base_turn_budget, target_turns_per_symptom,
      pacing_targets_get, hm, NUM_DSM_ITEMS, BUFFER_TURNS]
    norm_num

/-- Witness for C3: the non-extended persona hypothesis discharged at
`"warm_validating"`. -/
theorem turn_budget_planner_formula_witness :
    ("warm_validating" : String) ∉ EXTENDED_PACING_PERSONAS ∧
    target_turns_per_symptom "med" "warm_validating" = 2.0 :=
  ⟨by decide, (turn_budget_planner_formula.1 "warm_validating" (by decide)).2.1⟩

/-! ## C6: profile-sampler determinism -/

/-- C6: for a fixed background-writer oracle and fixed overrides,
`sample_patient_profile` is a pure function of the injected rng state: two
invocations with equally-seeded rngs (and no intervening rng use) produce
identical profiles; and the sampler coincides with the spec's fixed
composition order template → modifiers → pacing → context domains →
episode density → voice style → personal background tags → age range →
emphasized-symptom intensity → extra-elevated symptom → frequency
profile (`sample_profile_spec_order`), all randomness flowing through the
single threaded rng. -/
theorem profile_sampler_determinism :
    (∀ (bgOracle : List String → Option String) (forced : Forced) (g₁ g₂ : Rng),
        g₁ = g₂ →
        sample_patient_profile bgOracle forced g₁ =
          sample_patient_profile bgOracle forced g₂) ∧
    (∀ (bgOracle : List String → Option String) (forced : Forced) (g : Rng),
        sample_patient_profile bgOracle forced g =
          sample_profile_spec_order bgOracle forced g) := by
  constructor
  · intro o f g₁ g₂ h
    rw [h]
  · intro o f g
    rfl

/-- Witness for C6: the equal-seed hypothesis discharged at a concrete
zero-stream rng. -/
theorem profile_sampler_determinism_witness :
    sample_patient_profile (fun _ => none) {} ⟨fun _ => 0, 0⟩ =
      sample_patient_profile (fun _ => none) {} ⟨fun _ => 0, 0⟩ :=
  profile_sampler_determinism.1 (fun _ => none) {} ⟨fun _ => 0, 0⟩ ⟨fun _ => 0, 0⟩ rfl

/-! ## C5: decision-step fallback -/

/-- C5: for every doctor-manager output that fails JSON parsing,
`parse_doctor_manager_output` falls back to `next_action = "DSM"` with a
symptom key drawn from the remaining pool when the pool is non-empty, and
to `next_action = "FOLLOW_UP"` with an empty key when the pool is empty;
and in the session loop, a parsed DSM decision whose `dsm_symptom_key` is
not in the current pool is substituted by the FIFO-first pending item,
which is removed from the pool and appended to `asked_question_order`. -/
theorem decision_step_fallback :
    (∀ (keys : List String) (fb : Nat), keys ≠ [] →
        (parse_doctor_manager_output none keys fb).next_action = "DSM" ∧
        (parse_doctor_manager_output none keys fb).dsm_symptom_key ∈ keys) ∧
    (∀ fb : Nat,
        (parse_doctor_manager_output none [] fb).next_action = "FOLLOW_UP" ∧
        (parse_doctor_manager_output none [] fb).dsm_symptom_key = "") ∧
    (∀ (cfg : SessionConfig) (oz : Oracles) (n : Nat) (key : String) (s : SessionState),
        key ∉ s.dsm_pool → s.dsm_pool ≠ [] →
        (applyDecision cfg oz n "DSM" key s).dsm_pool =
          s.dsm_pool.erase (s.dsm_pool.headD "") ∧
        (applyDecision cfg oz n "DSM" key s).asked_question_order =
          s.asked_question_order ++ [s.dsm_pool.headD ""]) := by
  refine ⟨?_, ?_, ?_⟩
  · intro keys fb h
    have hlen : keys.length ≠ 0 := by simpa [List.length_eq_zero] using h
    constructor
    · simp [parse_doctor_manager_output, hlen]
    · simpa [parse_doctor_manager_output, hlen] using getD_mod_mem keys "" fb h
  · intro fb
    constructor <;> rfl
  · intro cfg oz n key s hk hne
    constructor <;> simp [applyDecision, hk, hne]

/-- Witness for C5: the pool hypotheses discharged at concrete inputs. -/
theorem decision_step_fallback_witness :
    (("X" : String) ∉ ["a", "b"] ∧ (["a", "b"] : List String) ≠ []) ∧
    (applyDecision
        { max_doctor_turns := 15, dsm_turn_budget := 18, target_turns_per_symptom := 2,
          voice_verbosity := "moderate", voice_trust := "neutral" }
        { doctorMgr := fun _ => none, forceMgr := fun _ => none, postMgr := fun _ => none,
          patientMgr := fun _ => none, patientFirst := none, fallback := fun _ => 0 }
        0 "DSM" "X"
        { dsm_pool := ["a", "b"], asked_question_order := [],
          doctor_turns_elapsed := 0, disclosure_state := "PARTIAL" }).dsm_pool = ["b"] := by
  refine ⟨⟨by decide, by decide⟩, ?_⟩
  have h := (decision_step_fallback.2.2
    { max_doctor_turns := 15, dsm_turn_budget := 18, target_turns_per_symptom := 2,
      voice_verbosity := "moderate", voice_trust := "neutral" }
    { doctorMgr := fun _ => none, forceMgr := fun _ => none, postMgr := fun _ => none,
      patientMgr := fun _ => none, patientFirst := none, fallback := fun _ => 0 }
    0 "X"
    { dsm_pool := ["a", "b"], asked_question_order := [],
      doctor_turns_elapsed := 0, disclosure_state := "PARTIAL" }
    (by decide) (by decide)).1
  simpa using h

/-! ## C10: disclosure state unchanged on malformed patient guidance -/

/-- C10: for every patient-manager output that fails JSON parsing,
`parse_patient_manager_output` returns the defaults object whose
`disclosure_stage` equals the current disclosure state, so a loop
iteration whose patient-manager output is unparseable leaves the session's
`disclosure_state` unchanged (it is overwritten only from this returned
guidance). -/
theorem disclosure_unchanged_on_malformed_guidance :
    (∀ verbosity trust current_disclosure_state : String,
        (parse_patient_manager_output none verbosity trust
            current_disclosure_state).disclosure_stage = current_disclosure_state) ∧
    (∀ (cfg : SessionConfig) (oz : Oracles) (n : Nat) (na key : String) (s : SessionState),
        oz.patientMgr n = none →
        (applyDecision cfg oz n na key s).disclosure_state = s.disclosure_state) := by
  constructor
  · intro v t cd
    rfl
  · intro cfg oz n na key s h
    simp only [applyDecision, h]
    split_ifs <;> rfl

/-- Witness for C10: the malformed-output hypothesis discharged at a
concrete oracle that always fails to parse. -/
theorem disclosure_unchanged_witness :
    (applyDecision
        { max_doctor_turns := 15, dsm_turn_budget := 18, target_turns_per_symptom := 2,
          voice_verbosity := "moderate", voice_trust := "neutral" }
        { doctorMgr := fun _ => none, forceMgr := fun _ => none, postMgr := fun _ => none,
          patientMgr := fun _ => none, patientFirst := none, fallback := fun _ => 0 }
        0 "FOLLOW_UP" ""
        { dsm_pool := DSM_ITEMS, asked_question_order := [],
          doctor_turns_elapsed := 0, disclosure_state := "PARTIAL" }).disclosure_state =
      "PARTIAL" :=
  disclosure_unchanged_on_malformed_guidance.2
    { max_doctor_turns := 15, dsm_turn_budget := 18, target_turns_per_symptom := 2,
      voice_verbosity := "moderate", voice_trust := "neutral" }
    { doctorMgr := fun _ => none, forceMgr := fun _ => none, postMgr := fun _ => none,
      patientMgr := fun _ => none, patientFirst := none, fallback := fun _ => 0 }
    0 "FOLLOW_UP" ""
    { dsm_pool := DSM_ITEMS, asked_question_order := [],
      doctor_turns_elapsed := 0, disclosure_state := "PARTIAL" }
    rfl

/-! ## C2: mode-selection decision tree -/

/-- C2: on every iteration the mode is chosen fresh as POST_DSM iff the
pool is empty; otherwise FORCE_DSM iff `remaining_total_turns ≤
remaining_dsm_items` — in which case the asked item is the FIFO-first pool
element regardless of the guidance oracle's output; otherwise LOW_TURNS iff
`remaining_dsm_turns / remaining_dsm_items < target_turns_per_symptom`,
and NORMAL otherwise. -/
theorem mode_selection_decision_tree (cfg : SessionConfig) (pool_len elapsed : Nat) :
    (select_mode cfg pool_len elapsed = Mode.POST_DSM ↔ pool_len = 0) ∧
    (pool_len ≠ 0 →
      (select_mode cfg pool_len elapsed = Mode.FORCE_DSM ↔
        cfg.max_doctor_turns - elapsed ≤ pool_len)) ∧
    (pool_len ≠ 0 → pool_len < cfg.max_doctor_turns - elapsed →
      ((select_mode cfg pool_len elapsed = Mode.LOW_TURNS ↔
         ((cfg.dsm_turn_budget - elapsed : Nat) : ℚ) / (pool_len : ℚ) <
           cfg.target_turns_per_symptom) ∧
       (select_mode cfg pool_len elapsed = Mode.NORMAL ↔
         ¬ ((cfg.dsm_turn_budget - elapsed : Nat) : ℚ) / (pool_len : ℚ) <
           cfg.target_turns_per_symptom))) ∧
    (∀ (oz : Oracles) (s : SessionState),
      select_mode cfg s.dsm_pool.length s.doctor_turns_elapsed = Mode.FORCE_DSM →
      (sessionStep cfg oz s).2 = false ∧
      (sessionStep cfg oz s).1.asked_question_order =
        s.asked_question_order ++ [s.dsm_pool.headD ""] ∧
      (sessionStep cfg oz s).1.dsm_pool = s.dsm_pool.erase (s.dsm_pool.headD "")) := by
  refine ⟨?_, ?_, ?_, ?_⟩
  · unfold select_mode
    by_cases h1 : pool_len = 0
    · simp [h1]
    · rw [if_neg h1]
      split_ifs with h2 h3 <;> simp [h1]
  · intro hne
    unfold select_mode
    rw [if_neg hne]
    split_ifs with h2 h3 <;> simp [h2]
  · intro hne hlt
    have h2 : ¬ (cfg.max_doctor_turns - elapsed ≤ pool_len) := by omega
    unfold select_mode
    rw [if_neg hne, if_neg h2]
    split_ifs with h3 <;> simp [h3, not_lt]
  · intro oz s hforce
    have hne : s.dsm_pool ≠ [] := by
      intro hnil
      rw [select_mode, if_pos (by simp [hnil])] at hforce
      exact absurd hforce (by simp)
    have hmem : s.dsm_pool.head?.getD "" ∈ s.dsm_pool := by
      simpa using headD_mem _ hne
    simp only [sessionStep, hforce]
    refine ⟨trivial, ?_, ?_⟩ <;> simp [applyDecision, hmem]

/-- Witness for C2: the non-empty-pool and slack hypotheses discharged at
concrete counter values (pool of 5 pending items, turn 3 of 20, budget 18,
target 2: remaining dsm turns 15, so the low-turns test is 3 < 2, false,
and the selected mode is NORMAL). -/
theorem mode_selection_decision_tree_witness :
    select_mode
      { max_doctor_turns := 20, dsm_turn_budget := 18, target_turns_per_symptom := 2,
        voice_verbosity := "moderate", voice_trust := "neutral" } 5 3 = Mode.NORMAL :=
  ((mode_selection_decision_tree
    { max_doctor_turns := 20, dsm_turn_budget := 18, target_turns_per_symptom := 2,
      voice_verbosity := "moderate", voice_trust := "neutral" } 5 3).2.2.1
    (by decide) (by decide)).2.mpr (by norm_num)


/-! ## Session-loop helper lemmas -/

theorem perm_move (asked pool : List String) (k : String) (hk : k ∈ pool) :
    ((asked ++ [k]) ++ pool.erase k).Perm (asked ++ pool) := by
  rw [List.append_assoc]
  exact List.Perm.append_left _ (List.perm_cons_erase hk).symm

theorem applyDecision_elapsed (cfg : SessionConfig) (oz : Oracles) (n : Nat)
    (na key : String) (s : SessionState) :
    (applyDecision cfg oz n na key s).doctor_turns_elapsed = s.doctor_turns_elapsed + 1 := by
  simp only [applyDecision]
  split_ifs <;> rfl

theorem applyDecision_pool_nil (cfg : SessionConfig) (oz : Oracles) (n : Nat)
    (na key : String) (s : SessionState) (h : s.dsm_pool = []) :
    (applyDecision cfg oz n na key s).dsm_pool = [] ∧
    (applyDecision cfg oz n na key s).asked_question_order = s.asked_question_order := by
  simp only [applyDecision]
  split_ifs <;> simp_all

theorem applyDecision_pool_le (cfg : SessionConfig) (oz : Oracles) (n : Nat)
    (na key : String) (s : SessionState) :
    (applyDecision cfg oz n na key s).dsm_pool.length ≤ s.dsm_pool.length := by
  simp only [applyDecision]
  split_ifs <;> simp [(List.erase_sublist _ _).length_le]

theorem applyDecision_force_pool (cfg : SessionConfig) (oz : Oracles) (n : Nat)
    (s : SessionState) (hne : s.dsm_pool ≠ []) :
    (applyDecision cfg oz n "DSM" (s.dsm_pool.headD "") s).dsm_pool.length + 1 =
      s.dsm_pool.length := by
  have hmem : s.dsm_pool.head?.getD "" ∈ s.dsm_pool := by simpa using headD_mem _ hne
  have hpos : 0 < s.dsm_pool.length := List.length_pos.mpr hne
  simp [applyDecision, hmem, List.length_erase_of_mem hmem]
  omega

theorem applyDecision_perm (cfg : SessionConfig) (oz : Oracles) (n : Nat)
    (na key : String) (s : SessionState) :
    ((applyDecision cfg oz n na key s).asked_question_order ++
      (applyDecision cfg oz n na key s).dsm_pool).Perm
      (s.asked_question_order ++ s.dsm_pool) := by
  by_cases h1 : na = "DSM"
  · by_cases h2 : key ∈ s.dsm_pool
    · simpa [applyDecision, h1, h2] using
        perm_move s.asked_question_order s.dsm_pool key h2
    · by_cases h3 : s.dsm_pool = []
      · simp [applyDecision, h1, h2, h3]
      · have hmem : s.dsm_pool.head?.getD "" ∈ s.dsm_pool := by
          simpa using headD_mem _ h3
        simpa [applyDecision, h1, h2, h3] using
          perm_move s.asked_question_order s.dsm_pool _ hmem
  · simpa [applyDecision, h1] using
      (List.Perm.refl (s.asked_question_order ++ s.dsm_pool))

theorem select_mode_eq_post (cfg : SessionConfig) {len e : Nat}
    (h : select_mode cfg len e = Mode.POST_DSM) : len = 0 := by
  by_contra hne
  unfold select_mode at h
  rw [if_neg hne] at h
  by_cases h2 : cfg.max_doctor_turns - e ≤ len
  · rw [if_pos h2] at h
    exact absurd h (by decide)
  · rw [if_neg h2] at h
    by_cases h3 : ((cfg.dsm_turn_budget - e : Nat) : ℚ) / (len : ℚ) <
        cfg.target_turns_per_symptom
    · rw [if_pos h3] at h
      exact absurd h (by decide)
    · rw [if_neg h3] at h
      exact absurd h (by decide)

theorem select_mode_eq_force (cfg : SessionConfig) {len e : Nat}
    (h : select_mode cfg len e = Mode.FORCE_DSM) :
    len ≠ 0 ∧ cfg.max_doctor_turns - e ≤ len := by
  unfold select_mode at h
  by_cases h1 : len = 0
  · rw [if_pos h1] at h
    exact absurd h (by decide)
  · rw [if_neg h1] at h
    refine ⟨h1, ?_⟩
    by_cases h2 : cfg.max_doctor_turns - e ≤ len
    · exact h2
    · rw [if_neg h2] at h
      by_cases h3 : ((cfg.dsm_turn_budget - e : Nat) : ℚ) / (len : ℚ) <
          cfg.target_turns_per_symptom
      · rw [if_pos h3] at h
        exact absurd h (by decide)
      · rw [if_neg h3] at h
        exact absurd h (by decide)

theorem select_mode_slack (cfg : SessionConfig) {len e : Nat}
    (h : select_mode cfg len e = Mode.LOW_TURNS ∨ select_mode cfg len e = Mode.NORMAL) :
    len ≠ 0 ∧ len < cfg.max_doctor_turns - e := by
  unfold select_mode at h
  by_cases h1 : len = 0
  · rw [if_pos h1] at h
    rcases h with h | h <;> exact absurd h (by decide)
  · rw [if_neg h1] at h
    by_cases h2 : cfg.max_doctor_turns - e ≤ len
    · rw [if_pos h2] at h
      rcases h with h | h <;> exact absurd h (by decide)
    · exact ⟨h1, by omega⟩

theorem sessionStep_cases (cfg : SessionConfig) (oz : Oracles) (s : SessionState) :
    sessionStep cfg oz s = (s, true) ∨
    ∃ na key, sessionStep cfg oz s =
      (applyDecision cfg oz s.doctor_turns_elapsed na key s, false) := by
  cases hmode : select_mode cfg s.dsm_pool.length s.doctor_turns_elapsed with
  | POST_DSM =>
    simp only [sessionStep, hmode]
    by_cases hend :
        (parse_post_dsm_manager_output (oz.postMgr s.doctor_turns_elapsed)).next_action = "END"
    · rw [if_pos hend]
      exact Or.inl rfl
    · rw [if_neg hend]
      exact Or.inr ⟨_, _, rfl⟩
  | FORCE_DSM =>
    simp only [sessionStep, hmode]
    exact Or.inr ⟨_, _, rfl⟩
  | LOW_TURNS =>
    simp only [sessionStep, hmode]
    exact Or.inr ⟨_, _, rfl⟩
  | NORMAL =>
    simp only [sessionStep, hmode]
    exact Or.inr ⟨_, _, rfl⟩

theorem sessionLoop_elapsed_le (cfg : SessionConfig) (oz : Oracles) :
    ∀ (fuel : Nat) (s : SessionState),
      s.doctor_turns_elapsed ≤ cfg.max_doctor_turns →
      (sessionLoop cfg oz fuel s).doctor_turns_elapsed ≤ cfg.max_doctor_turns := by
  intro fuel
  induction fuel with
  | zero => intro s h; exact h
  | succ fuel ih =>
    intro s h
    rw [sessionLoop]
    by_cases hguard : s.doctor_turns_elapsed < cfg.max_doctor_turns
    · rw [if_pos hguard]
      rcases sessionStep_cases cfg oz s with hstep | ⟨na, key, hstep⟩
      · rw [hstep]
        exact h
      · rw [hstep]
        exact ih _ (by rw [applyDecision_elapsed]; omega)
    · rw [if_neg hguard]
      exact h

theorem sessionLoop_elapsed_mono (cfg : SessionConfig) (oz : Oracles) :
    ∀ (fuel : Nat) (s : SessionState),
      s.doctor_turns_elapsed ≤ (sessionLoop cfg oz fuel s).doctor_turns_elapsed := by
  intro fuel
  induction fuel with
  | zero => intro s; exact Nat.le_refl _
  | succ fuel ih =>
    intro s
    rw [sessionLoop]
    by_cases hguard : s.doctor_turns_elapsed < cfg.max_doctor_turns
    · rw [if_pos hguard]
      rcases sessionStep_cases cfg oz s with hstep | ⟨na, key, hstep⟩
      · rw [hstep]
      · rw [hstep]
        have h1 : s.doctor_turns_elapsed ≤
            (applyDecision cfg oz s.doctor_turns_elapsed na key s).doctor_turns_elapsed := by
          rw [applyDecision_elapsed]; omega
        exact le_trans h1 (ih _)
    · rw [if_neg hguard]

theorem sessionLoop_covers (cfg : SessionConfig) (oz : Oracles) :
    ∀ (fuel : Nat) (s : SessionState),
      cfg.max_doctor_turns - s.doctor_turns_elapsed ≤ fuel →
      s.dsm_pool.length ≤ cfg.max_doctor_turns - s.doctor_turns_elapsed →
      (sessionLoop cfg oz fuel s).dsm_pool = [] ∧
      ((sessionLoop cfg oz fuel s).asked_question_order ++
        (sessionLoop cfg oz fuel s).dsm_pool).Perm
        (s.asked_question_order ++ s.dsm_pool) := by
  intro fuel
  induction fuel with
  | zero =>
    intro s hfuel hlen
    have hnil : s.dsm_pool = [] := List.length_eq_zero.mp (by omega)
    rw [sessionLoop]
    exact ⟨hnil, List.Perm.refl _⟩
  | succ fuel ih =>
    intro s hfuel hlen
    rw [sessionLoop]
    by_cases hguard : s.doctor_turns_elapsed < cfg.max_doctor_turns
    · rw [if_pos hguard]
      cases hmode : select_mode cfg s.dsm_pool.length s.doctor_turns_elapsed with
      | POST_DSM =>
        have hnil : s.dsm_pool = [] :=
          List.length_eq_zero.mp (select_mode_eq_post cfg hmode)
        simp only [sessionStep, hmode]
        by_cases hend : (parse_post_dsm_manager_output
            (oz.postMgr s.doctor_turns_elapsed)).next_action = "END"
        · rw [if_pos hend]
          exact ⟨hnil, List.Perm.refl _⟩
        · rw [if_neg hend]
          set s' := applyDecision cfg oz s.doctor_turns_elapsed
            (parse_post_dsm_manager_output (oz.postMgr s.doctor_turns_elapsed)).next_action
            "" s with hs'
          have helapsed : s'.doctor_turns_elapsed = s.doctor_turns_elapsed + 1 :=
            applyDecision_elapsed _ _ _ _ _ _
          have hpool : s'.dsm_pool = [] := (applyDecision_pool_nil _ _ _ _ _ _ hnil).1
          have hrec := ih s' (by omega) (by rw [hpool]; simp)
          exact ⟨hrec.1, hrec.2.trans (applyDecision_perm _ _ _ _ _ _)⟩
      | FORCE_DSM =>
        rcases select_mode_eq_force cfg hmode with ⟨hne0, hle⟩
        have hne : s.dsm_pool ≠ [] := fun hc => hne0 (by rw [hc]; rfl)
        simp only [sessionStep, hmode]
        set s' := applyDecision cfg oz s.doctor_turns_elapsed "DSM"
          (s.dsm_pool.headD "") s with hs'
        have helapsed : s'.doctor_turns_elapsed = s.doctor_turns_elapsed + 1 :=
          applyDecision_elapsed _ _ _ _ _ _
        have hdec : s'.dsm_pool.length + 1 = s.dsm_pool.length :=
          applyDecision_force_pool _ _ _ _ hne
        have hrec := ih s' (by omega) (by omega)
        exact ⟨hrec.1, hrec.2.trans (applyDecision_perm _ _ _ _ _ _)⟩
      | LOW_TURNS =>
        rcases select_mode_slack cfg (Or.inl hmode) with ⟨hne0, hlt⟩
        simp only [sessionStep, hmode]
        set d := parse_doctor_manager_output (oz.doctorMgr s.doctor_turns_elapsed)
          s.dsm_pool (oz.fallback s.doctor_turns_elapsed) with hd
        set s' := applyDecision cfg oz s.doctor_turns_elapsed d.next_action
          d.dsm_symptom_key s with hs'
        have helapsed : s'.doctor_turns_elapsed = s.doctor_turns_elapsed + 1 :=
          applyDecision_elapsed _ _ _ _ _ _
        have hdec : s'.dsm_pool.length ≤ s.dsm_pool.length :=
          applyDecision_pool_le _ _ _ _ _ _
        have hrec := ih s' (by omega) (by omega)
        exact ⟨hrec.1, hrec.2.trans (applyDecision_perm _ _ _ _ _ _)⟩
      | NORMAL =>
        rcases select_mode_slack cfg (Or.inr hmode) with ⟨hne0, hlt⟩
        simp only [sessionStep, hmode]
        set d := parse_doctor_manager_output (oz.doctorMgr s.doctor_turns_elapsed)
          s.dsm_pool (oz.fallback s.doctor_turns_elapsed) with hd
        set s' := applyDecision cfg oz s.doctor_turns_elapsed d.next_action
          d.dsm_symptom_key s with hs'
        have helapsed : s'.doctor_turns_elapsed = s.doctor_turns_elapsed + 1 :=
          applyDecision_elapsed _ _ _ _ _ _
        have hdec : s'.dsm_pool.length ≤ s.dsm_pool.length :=
          applyDecision_pool_le _ _ _ _ _ _
        have hrec := ih s' (by omega) (by omega)
        exact ⟨hrec.1, hrec.2.trans (applyDecision_perm _ _ _ _ _ _)⟩
    · rw [if_neg hguard]
      have hnil : s.dsm_pool = [] := List.length_eq_zero.mp (by omega)
      exact ⟨hnil, List.Perm.refl _⟩

/-! ## C1: DSM coverage guarantee -/

/-- C1: for every finite `max_doctor_turns ≥ 9 + buffer` and every
sequence of decision-step outputs (including malformed ones, via the
oracles), running the session loop to completion yields
`asked_question_order` containing all 9 DSM items exactly once with no
duplicates: the force-coverage branch asks the FIFO-first pending item
unconditionally whenever `remaining_total_turns ≤ remaining_dsm_items`,
which keeps `|dsm_pool| ≤ max_doctor_turns - doctor_turns_elapsed`
invariant, so the pool is empty at every loop exit. -/
theorem dsm_coverage_guarantee (cfg : SessionConfig) (oz : Oracles)
    (hmax : NUM_DSM_ITEMS + BUFFER_TURNS ≤ cfg.max_doctor_turns) :
    (run_session cfg oz).asked_question_order.Perm DSM_ITEMS ∧
    (run_session cfg oz).asked_question_order.Nodup ∧
    ∀ item ∈ DSM_ITEMS, (run_session cfg oz).asked_question_order.count item = 1 := by
  have hmax' : 9 + 5 ≤ cfg.max_doctor_turns := hmax
  have h := sessionLoop_covers cfg oz cfg.max_doctor_turns
    { dsm_pool := DSM_ITEMS, asked_question_order := [], doctor_turns_elapsed := 0,
      disclosure_state := (parse_patient_manager_output oz.patientFirst
        cfg.voice_verbosity cfg.voice_trust
        (init_disclosure_state cfg.voice_trust cfg.voice_verbosity)).disclosure_stage }
    (by show cfg.max_doctor_turns - 0 ≤ cfg.max_doctor_turns; omega)
    (by show (9 : Nat) ≤ cfg.max_doctor_turns - 0; omega)
  have hrun : run_session cfg oz = sessionLoop cfg oz cfg.max_doctor_turns
    { dsm_pool := DSM_ITEMS, asked_question_order := [], doctor_turns_elapsed := 0,
      disclosure_state := (parse_patient_manager_output oz.patientFirst
        cfg.voice_verbosity cfg.voice_trust
        (init_disclosure_state cfg.voice_trust cfg.voice_verbosity)).disclosure_stage } := rfl
  rw [hrun]
  rcases h with ⟨hpool, hperm⟩
  rw [hpool, List.append_nil, List.nil_append] at hperm
  have hnodup : DSM_ITEMS.Nodup := by decide
  refine ⟨hperm, hperm.nodup_iff.mpr hnodup, ?_⟩
  intro item hitem
  rw [hperm.count_eq]
  exact List.count_eq_one_of_mem hnodup hitem

/-- Witness for C1: the budget hypothesis discharged at
`max_doctor_turns = 15`, with every decision-step output malformed. -/
theorem dsm_coverage_guarantee_witness :
    NUM_DSM_ITEMS + BUFFER_TURNS ≤ 15 ∧
    (run_session
        { max_doctor_turns := 15, dsm_turn_budget := 18, target_turns_per_symptom := 2,
          voice_verbosity := "moderate", voice_trust := "neutral" }
        { doctorMgr := fun _ => none, forceMgr := fun _ => none, postMgr := fun _ => none,
          patientMgr := fun _ => none, patientFirst := none,
          fallback := fun _ => 0 }).asked_question_order.Perm DSM_ITEMS :=
  ⟨by decide,
   (dsm_coverage_guarantee
      { max_doctor_turns := 15, dsm_turn_budget := 18, target_turns_per_symptom := 2,
        voice_verbosity := "moderate", voice_trust := "neutral" }
      { doctorMgr := fun _ => none, forceMgr := fun _ => none, postMgr := fun _ => none,
        patientMgr := fun _ => none, patientFirst := none, fallback := fun _ => 0 }
      (by decide)).1⟩

/-! ## C4: budget bound invariant -/

/-- C4: `doctor_turns_elapsed` is incremented by exactly one by every
continuing loop iteration (the END break leaves the state untouched), the
loop body runs only when `doctor_turns_elapsed < max_doctor_turns` (the
guard returns the state unchanged otherwise), the counter is monotone from
its initial value, and it never exceeds `max_doctor_turns`; in particular
the full session run ends with `doctor_turns_elapsed ≤ max_doctor_turns`. -/
theorem budget_bound_invariant (cfg : SessionConfig) (oz : Oracles) :
    (∀ s : SessionState,
        ((sessionStep cfg oz s).2 = false →
          (sessionStep cfg oz s).1.doctor_turns_elapsed = s.doctor_turns_elapsed + 1) ∧
        ((sessionStep cfg oz s).2 = true → (sessionStep cfg oz s).1 = s)) ∧
    (∀ (fuel : Nat) (s : SessionState),
        ¬ s.doctor_turns_elapsed < cfg.max_doctor_turns →
        sessionLoop cfg oz (fuel + 1) s = s) ∧
    (∀ (fuel : Nat) (s : SessionState),
        s.doctor_turns_elapsed ≤ (sessionLoop cfg oz fuel s).doctor_turns_elapsed) ∧
    (∀ (fuel : Nat) (s : SessionState),
        s.doctor_turns_elapsed ≤ cfg.max_doctor_turns →
        (sessionLoop cfg oz fuel s).doctor_turns_elapsed ≤ cfg.max_doctor_turns) ∧
    (run_session cfg oz).doctor_turns_elapsed ≤ cfg.max_doctor_turns := by
  refine ⟨?_, ?_, sessionLoop_elapsed_mono cfg oz, sessionLoop_elapsed_le cfg oz, ?_⟩
  · intro s
    rcases sessionStep_cases cfg oz s with h | ⟨na, key, h⟩
    · simp [h]
    · simp [h, applyDecision_elapsed]
  · intro fuel s h
    rw [sessionLoop, if_neg h]
  · exact sessionLoop_elapsed_le cfg oz cfg.max_doctor_turns _ (Nat.zero_le _)

/-- Witness for C4: the exhausted-budget hypothesis discharged at a state
whose counter already equals the budget. -/
theorem budget_bound_invariant_witness :
    sessionLoop
      { max_doctor_turns := 15, dsm_turn_budget := 18, target_turns_per_symptom := 2,
        voice_verbosity := "moderate", voice_trust := "neutral" }
      { doctorMgr := fun _ => none, forceMgr := fun _ => none, postMgr := fun _ => none,
        patientMgr := fun _ => none, patientFirst := none, fallback := fun _ => 0 }
      1
      { dsm_pool := DSM_ITEMS, asked_question_order := [],
        doctor_turns_elapsed := 15, disclosure_state := "PARTIAL" } =
    { dsm_pool := DSM_ITEMS, asked_question_order := [],
      doctor_turns_elapsed := 15, disclosure_state := "PARTIAL" } :=
  (budget_bound_invariant
    { max_doctor_turns := 15, dsm_turn_budget := 18, target_turns_per_symptom := 2,
      voice_verbosity := "moderate", voice_trust := "neutral" }
    { doctorMgr := fun _ => none, forceMgr := fun _ => none, postMgr := fun _ => none,
      patientMgr := fun _ => none, patientFirst := none, fallback := fun _ => 0 }).2.1
    0
    { dsm_pool := DSM_ITEMS, asked_question_order := [],
      doctor_turns_elapsed := 15, disclosure_state := "PARTIAL" }
    (by decide)

/-! ## C8: required-facet selection -/

theorem pyChoicesPos_mem (l : List String) (g : Rng) (h : l ≠ []) :
    (pyChoicesPos l g).fst ∈ l :=
  getD_mod_mem l "" (g.stream g.pos) h

theorem select_facets_loop_inv (num_facets : Nat) :
    ∀ (fuel tc : Nat) (selected : List String) (g : Rng),
      selected.Nodup →
      tc = selected.countP (fun c => decide (c ∈ TRAUMA_ADVERSITY_FACETS)) →
      tc ≤ 2 →
      selected.length ≤ num_facets →
      (select_facets_loop num_facets fuel tc selected g).fst.Nodup ∧
      (select_facets_loop num_facets fuel tc selected g).fst.length ≤ num_facets ∧
      (select_facets_loop num_facets fuel tc selected g).fst.countP
        (fun c => decide (c ∈ TRAUMA_ADVERSITY_FACETS)) ≤ 2 := by
  intro fuel
  induction fuel with
  | zero =>
    intro tc selected g hnd htc htc2 hle
    rw [select_facets_loop]
    exact ⟨hnd, hle, htc ▸ htc2⟩
  | succ fuel ih =>
    intro tc selected g hnd htc htc2 hle
    rw [select_facets_loop]
    by_cases hlen : selected.length < num_facets
    · rw [if_pos hlen]
      rcases hc : pyChoicesPos LIFE_FACET_CATEGORIES g with ⟨candidate, g'⟩
      simp only []
      by_cases hdup : candidate ∈ selected
      · rw [if_pos hdup]
        exact ih tc selected g' hnd htc htc2 hle
      · rw [if_neg hdup]
        by_cases htr : candidate ∈ TRAUMA_ADVERSITY_FACETS
        · rw [if_pos htr]
          by_cases hcap : 2 ≤ tc
          · rw [if_pos hcap]
            exact ih tc selected g' hnd htc htc2 hle
          · rw [if_neg hcap]
            refine ih (tc + 1) (selected ++ [candidate]) g' ?_ ?_ (by omega) ?_
            · simp [List.nodup_append, hnd, hdup]
            · rw [List.countP_append, htc]
              simp [htr]
            · simp
              omega
        · rw [if_neg htr]
          refine ih tc (selected ++ [candidate]) g' ?_ ?_ htc2 ?_
          · simp [List.nodup_append, hnd, hdup]
          · rw [List.countP_append, htc]
            simp [htr]
          · simp
            omega
    · rw [if_neg hlen]
      exact ⟨hnd, hle, htc ▸ htc2⟩

/-- Counterexample to C8 as stated: with the rng stream that constantly
returns 0 (`randint(5,8)` giving 5, every weighted draw giving the first
category), all 100 attempts after the first draw the duplicate
`"identity_stage"`, so the loop exhausts its attempt budget and
`select_required_facets` returns a single facet — fewer than the claimed
minimum of 5. -/
theorem required_facets_counterexample :
    ¬ (5 ≤ (select_required_facets ⟨fun _ => 0, 0⟩ [] (fun _ => "NONE")
        "mild").fst.length) := by
  decide

/-- C8 amended: for every rng state, context-domain list, depression
profile and severity bucket, `select_required_facets` returns a
duplicate-free list of at most 8 facet categories containing at most 2
categories from the trauma/adversity set; the lower bound of 5 holds only
when the 100-attempt loop gathers enough distinct candidates, not for
every rng state. -/
theorem required_facets_bounds (g : Rng) (context_domains : List String)
    (depression_profile : String → String) (severity : String) :
    (select_required_facets g context_domains depression_profile severity).fst.Nodup ∧
    (select_required_facets g context_domains depression_profile severity).fst.length ≤ 8 ∧
    (select_required_facets g context_domains depression_profile severity).fst.countP
      (fun c => decide (c ∈ TRAUMA_ADVERSITY_FACETS)) ≤ 2 := by
  unfold select_required_facets
  rcases hr : pyRandint 5 8 g with ⟨num_facets, g₁⟩
  simp only []
  have h5 : num_facets = 5 + g.stream g.pos % 4 := by
    have h := congrArg Prod.fst hr
    simpa [pyRandint, Rng.next] using h.symm
  have hm4 : g.stream g.pos % 4 < 4 := Nat.mod_lt _ (by norm_num)
  have hnum : num_facets ≤ 8 := by omega
  have h := select_facets_loop_inv num_facets 100 0 [] g₁ (by simp) (by simp)
    (by omega) (by simp)
  exact ⟨h.1, le_trans h.2.1 hnum, h.2.2⟩

/-! ## C9: ULTRA_LOW density cap -/

theorem pySample_subset : ∀ (k : Nat) (l : List String) (g : Rng),
    (pySample l k g).fst ⊆ l := by
  intro k
  induction k with
  | zero =>
    intro l g x hx
    rw [pySample] at hx
    simp at hx
  | succ k ih =>
    intro l g x hx
    rw [pySample] at hx
    by_cases h0 : l.length = 0
    · rw [if_pos h0] at hx
      simp at hx
    · rw [if_neg h0] at hx
      simp only [] at hx
      have hne : l ≠ [] := fun hc => h0 (by rw [hc]; rfl)
      rcases List.mem_cons.mp hx with hx | hx
      · rw [hx]
        exact getD_mod_mem l "" _ hne
      · exact List.eraseIdx_subset _ _ (ih _ _ hx)

theorem pySample_length : ∀ (k : Nat) (l : List String) (g : Rng),
    (pySample l k g).fst.length ≤ k := by
  intro k
  induction k with
  | zero =>
    intro l g
    simp [pySample]
  | succ k ih =>
    intro l g
    rw [pySample]
    by_cases h0 : l.length = 0
    · rw [if_pos h0]
      simp
    · rw [if_neg h0]
      simp only [List.length_cons]
      exact Nat.succ_le_succ (ih _ _)

theorem sample_emph_freq_mem (level : String) (g : Rng) :
    (sample_emph_freq level g).fst ∈ (["RARE", "SOME", "OFTEN"] : List String) := by
  unfold sample_emph_freq
  have hso : ∀ y ∈ (["SOME", "OFTEN"] : List String),
      y ∈ (["RARE", "SOME", "OFTEN"] : List String) := by decide
  have hsor : ∀ y ∈ (["SOME", "OFTEN", "RARE"] : List String),
      y ∈ (["RARE", "SOME", "OFTEN"] : List String) := by decide
  split_ifs with h1 h2
  · exact pyChoicesPos_mem _ g (by decide)
  · exact hso _ (pyChoicesPos_mem ["SOME", "OFTEN"] g (by decide))
  · exact hsor _ (pyChoicesPos_mem ["SOME", "OFTEN", "RARE"] g (by decide))

theorem ultra_low_assign_not_mem (emphasized : List String) (ei : String → String) :
    ∀ (sel : List String) (prof : String → String) (g : Rng) (x : String),
      x ∉ sel → (ultra_low_assign emphasized ei sel prof g).fst x = prof x := by
  intro sel
  induction sel with
  | nil =>
    intro prof g x _
    rfl
  | cons s rest ih =>
    intro prof g x hx
    have hxs : x ≠ s := fun hc => hx (hc ▸ List.mem_cons_self s rest)
    have hxr : x ∉ rest := fun hc => hx (List.mem_cons_of_mem s hc)
    rw [ultra_low_assign]
    rcases hv : (if s ∈ emphasized then sample_emph_freq (ei s) g
        else pyChoicesPos ["RARE", "SOME", "OFTEN"] g) with ⟨v, g'⟩
    simp only []
    rw [ih _ _ _ hxr]
    simp [hxs]

theorem ultra_low_assign_values (emphasized : List String) (ei : String → String) :
    ∀ (sel : List String) (prof : String → String) (g : Rng) (x : String),
      (ultra_low_assign emphasized ei sel prof g).fst x = prof x ∨
      (ultra_low_assign emphasized ei sel prof g).fst x ∈
        (["RARE", "SOME", "OFTEN"] : List String) := by
  intro sel
  induction sel with
  | nil =>
    intro prof g x
    exact Or.inl rfl
  | cons s rest ih =>
    intro prof g x
    rw [ultra_low_assign]
    rcases hv : (if s ∈ emphasized then sample_emph_freq (ei s) g
        else pyChoicesPos ["RARE", "SOME", "OFTEN"] g) with ⟨v, g'⟩
    simp only []
    have hvmem : v ∈ (["RARE", "SOME", "OFTEN"] : List String) := by
      by_cases hs : s ∈ emphasized
      · rw [if_pos hs] at hv
        have := sample_emph_freq_mem (ei s) g
        rw [hv] at this
        exact this
      · rw [if_neg hs] at hv
        have := pyChoicesPos_mem ["RARE", "SOME", "OFTEN"] g (by decide)
        rw [hv] at this
        exact this
    rcases ih (fun y => if y = s then v else prof y) g' x with h | h
    · rw [h]
      by_cases hxs : x = s
      · rw [if_pos hxs]
        exact Or.inr hvmem
      · rw [if_neg hxs]
        exact Or.inl rfl
    · exact Or.inr h

/-- C9: `generate_depression_profile` with `episode_density = ULTRA_LOW`
assigns every symptom a value in {NONE, RARE, SOME, OFTEN}, at most 2 of
the nine DSM symptoms are non-NONE, every non-selected symptom is exactly
NONE, and (because the target count of at most 2 never exceeds the
emphasized list, so the candidate pool is never extended) every non-NONE
symptom comes from the template's emphasized set. -/
theorem ultra_low_density_cap (g : Rng) (template : Big5Template)
    (emph_intensity : String → String) (extra_high : List String)
    (hlen : 2 ≤ template.emphasized_symptoms.length) :
    (∀ x, (generate_depression_profile g template "ULTRA_LOW" emph_intensity
        extra_high).fst x ∈ (["NONE", "RARE", "SOME", "OFTEN"] : List String)) ∧
    (DSM_ITEMS.filter (fun s => !((generate_depression_profile g template "ULTRA_LOW"
        emph_intensity extra_high).fst s == "NONE"))).length ≤ 2 ∧
    (∀ x, (generate_depression_profile g template "ULTRA_LOW" emph_intensity
        extra_high).fst x ≠ "NONE" → x ∈ template.emphasized_symptoms) := by
  rcases ht : pyChoiceNat [0, 1, 2] g with ⟨target, g₁⟩
  have htarget : target ≤ 2 := by
    have h := congrArg Prod.fst ht
    simp only [pyChoiceNat, Rng.next] at h
    have hmem := getD_mod_mem [0, 1, 2] 0 (g.stream g.pos) (by decide)
    rw [h] at hmem
    have h3 : target = 0 ∨ target = 1 ∨ target = 2 := by simpa using hmem
    omega
  have hpool : ¬ (template.emphasized_symptoms.length < target) := by omega
  rcases hsel : (if 0 < target then
      pySample template.emphasized_symptoms
        (min target template.emphasized_symptoms.length) g₁
    else (([] : List String), g₁)) with ⟨sel, g₂⟩
  have hgen : generate_depression_profile g template "ULTRA_LOW" emph_intensity
      extra_high =
      ultra_low_assign template.emphasized_symptoms emph_intensity sel
        (fun _ => "NONE") g₂ := by
    simp only [generate_depression_profile, ht, if_neg hpool, hsel,
      eq_self_iff_true, if_true]
  have hsel_cases : sel = [] ∨ sel = (pySample template.emphasized_symptoms
      (min target template.emphasized_symptoms.length) g₁).fst := by
    by_cases h0 : 0 < target
    · rw [if_pos h0] at hsel
      right
      rw [hsel]
    · rw [if_neg h0] at hsel
      left
      exact (Prod.mk.injEq _ _ _ _).mp hsel.symm |>.1
  have hsub : sel ⊆ template.emphasized_symptoms := by
    rcases hsel_cases with h | h
    · rw [h]
      simp
    · rw [h]
      exact pySample_subset _ _ _
  have hslen : sel.length ≤ 2 := by
    rcases hsel_cases with h | h
    · rw [h]
      simp
    · calc sel.length = (pySample template.emphasized_symptoms
            (min target template.emphasized_symptoms.length) g₁).fst.length := by rw [h]
        _ ≤ min target template.emphasized_symptoms.length := pySample_length _ _ _
        _ ≤ target := min_le_left _ _
        _ ≤ 2 := htarget
  rw [hgen]
  have hnonsel : ∀ x, x ∉ sel →
      (ultra_low_assign template.emphasized_symptoms emph_intensity sel
        (fun _ => "NONE") g₂).fst x = "NONE" :=
    fun x hx => ultra_low_assign_not_mem _ _ sel _ g₂ x hx
  have hmem_of : ∀ x, (ultra_low_assign template.emphasized_symptoms emph_intensity sel
      (fun _ => "NONE") g₂).fst x ≠ "NONE" → x ∈ sel := by
    intro x hx
    by_contra hc
    exact hx (hnonsel x hc)
  refine ⟨?_, ?_, fun x hx => hsub (hmem_of x hx)⟩
  · intro x
    have himp : ∀ y ∈ (["RARE", "SOME", "OFTEN"] : List String),
        y ∈ (["NONE", "RARE", "SOME", "OFTEN"] : List String) := by decide
    rcases ultra_low_assign_values template.emphasized_symptoms emph_intensity sel
        (fun _ => "NONE") g₂ x with h | h
    · rw [h]
      decide
    · exact himp _ h
  · have hfsub : (DSM_ITEMS.filter (fun s => !((ultra_low_assign
        template.emphasized_symptoms emph_intensity sel
        (fun _ => "NONE") g₂).fst s == "NONE"))) ⊆ sel := by
      intro x hx
      rcases List.mem_filter.mp hx with ⟨_, hp⟩
      exact hmem_of x (by simpa using hp)
    have hfnd : (DSM_ITEMS.filter (fun s => !((ultra_low_assign
        template.emphasized_symptoms emph_intensity sel
        (fun _ => "NONE") g₂).fst s == "NONE"))).Nodup :=
      List.Nodup.filter _ (by decide)
    exact le_trans (List.subperm_of_subset hfnd hfsub).length_le hslen

/-- Witness for C9: the emphasized-list hypothesis discharged at the
NEUROTICISM_HIGH template (4 emphasized symptoms). -/
theorem ultra_low_density_cap_witness :
    2 ≤ (big5_template_get "NEUROTICISM_HIGH").emphasized_symptoms.length ∧
    (∀ x, (generate_depression_profile ⟨fun _ => 0, 0⟩
        (big5_template_get "NEUROTICISM_HIGH") "ULTRA_LOW" (fun _ => "MED")
        []).fst x ≠ "NONE" →
      x ∈ (big5_template_get "NEUROTICISM_HIGH").emphasized_symptoms) :=
  ⟨by decide,
   (ultra_low_density_cap ⟨fun _ => 0, 0⟩ (big5_template_get "NEUROTICISM_HIGH")
     (fun _ => "MED") [] (by decide)).2.2⟩

/-! ## C7 helper lemmas: join injectivity and single-position differences -/

theorem comma_split_unique :
    ∀ (a : List Char), ',' ∉ a → ∀ (b : List Char), ',' ∉ b →
      ∀ (u v : List Char), a ++ ',' :: u = b ++ ',' :: v → a = b ∧ u = v := by
  intro a
  induction a with
  | nil =>
    intro _ b hb u v h
    cases b with
    | nil =>
      injection h with _ h2
      exact ⟨rfl, h2⟩
    | cons c bt =>
      injection h with h1 _
      subst h1
      exact absurd (List.mem_cons_self _ _) hb
  | cons c at' ih =>
    intro ha b hb u v h
    cases b with
    | nil =>
      injection h with h1 _
      rw [h1] at ha
      exact absurd (List.mem_cons_self _ _) ha
    | cons d bt =>
      injection h with h1 h2
      have ha' : ',' ∉ at' := fun hm => ha (List.mem_cons_of_mem _ hm)
      have hb' : ',' ∉ bt := fun hm => hb (List.mem_cons_of_mem _ hm)
      obtain ⟨hab, huv⟩ := ih ha' bt hb' u v h2
      exact ⟨by rw [h1, hab], huv⟩

theorem pyJoin_comma_inj :
    ∀ (l₁ l₂ : List String),
      (∀ m ∈ l₁, ModifierLike m) → (∀ m ∈ l₂, ModifierLike m) →
      pyJoin "," l₁ = pyJoin "," l₂ → l₁ = l₂ := by
  intro l₁
  induction l₁ with
  | nil =>
    intro l₂ _ h2 h
    cases l₂ with
    | nil => rfl
    | cons y u =>
      cases u with
      | nil => exact absurd h.symm (h2 y (List.mem_cons_self _ _)).1
      | cons z u' =>
        exfalso
        have hd := congrArg String.data h
        rw [pyJoin_cons "," y (z :: u') (by simp)] at hd
        simp only [String.data_append,
          show (("," : String)).data = [','] from rfl] at hd
        have := congrArg List.length hd
        simp [pyJoin] at this
        omega
  | cons x t ih =>
    intro l₂ h1 h2 h
    cases l₂ with
    | nil =>
      cases t with
      | nil => exact absurd h (h1 x (List.mem_cons_self _ _)).1
      | cons w t' =>
        exfalso
        have hd := congrArg String.data h
        rw [pyJoin_cons "," x (w :: t') (by simp)] at hd
        simp only [String.data_append,
          show (("," : String)).data = [','] from rfl] at hd
        have := congrArg List.length hd
        simp [pyJoin] at this
    | cons y u =>
      cases t with
      | nil =>
        cases u with
        | nil =>
          rw [show pyJoin "," [x] = x from rfl, show pyJoin "," [y] = y from rfl] at h
          rw [h]
        | cons z u' =>
          exfalso
          have hx := (h1 x (List.mem_cons_self _ _)).2
          apply hx
          have hd := congrArg String.data h
          rw [show pyJoin "," [x] = x from rfl,
            pyJoin_cons "," y (z :: u') (by simp)] at hd
          rw [hd]
          simp [String.data_append, show (("," : String)).data = [','] from rfl]
      | cons w t' =>
        cases u with
        | nil =>
          exfalso
          have hy := (h2 y (List.mem_cons_self _ _)).2
          apply hy
          have hd := congrArg String.data h
          rw [show pyJoin "," [y] = y from rfl,
            pyJoin_cons "," x (w :: t') (by simp)] at hd
          rw [← hd]
          simp [String.data_append, show (("," : String)).data = [','] from rfl]
        | cons z u' =>
          have hd := congrArg String.data h
          rw [pyJoin_cons "," x (w :: t') (by simp),
            pyJoin_cons "," y (z :: u') (by simp)] at hd
          simp only [String.data_append,
            show (("," : String)).data = [','] from rfl, List.append_assoc,
            List.singleton_append] at hd
          obtain ⟨hxy, hJ⟩ := comma_split_unique x.data
            (h1 x (List.mem_cons_self _ _)).2 y.data
            (h2 y (List.mem_cons_self _ _)).2 _ _ hd
          have hx : x = y := String.ext hxy
          have hJs : pyJoin "," (w :: t') = pyJoin "," (z :: u') := String.ext hJ
          have ht := ih (z :: u') (fun m hm => h1 m (List.mem_cons_of_mem _ hm))
            (fun m hm => h2 m (List.mem_cons_of_mem _ hm)) hJs
          rw [hx, ht]

theorem map_single_diff (f g : String → String) :
    ∀ (l : List String) (s : String), s ∈ l → l.Nodup →
      (∀ t ∈ l, t ≠ s → f t = g t) →
      ∃ pre post, l.map f = pre ++ f s :: post ∧ l.map g = pre ++ g s :: post := by
  intro l
  induction l with
  | nil =>
    intro s hs
    simp at hs
  | cons x t ih =>
    intro s hs hnd hag
    by_cases hxs : x = s
    · subst hxs
      have hnotmem : x ∉ t := (List.nodup_cons.mp hnd).1
      have hmaps : t.map f = t.map g :=
        List.map_congr_left
          (fun a ha => hag a (List.mem_cons_of_mem _ ha) (fun he => hnotmem (he ▸ ha)))
      exact ⟨[], t.map f, by simp, by simp [hmaps]⟩
    · have hst : s ∈ t := by
        rcases List.mem_cons.mp hs with hq | hq
        · exact absurd hq.symm hxs
        · exact hq
      obtain ⟨pre, post, hm1, hm2⟩ := ih s hst (List.nodup_cons.mp hnd).2
        (fun a ha hne => hag a (List.mem_cons_of_mem _ ha) hne)
      have hfx : f x = g x := hag x (List.mem_cons_self _ _) hxs
      refine ⟨f x :: pre, post, ?_, ?_⟩
      · rw [List.map_cons, hm1]
        rfl
      · rw [List.map_cons, hm2, ← hfx]
        rfl

theorem agent_key_ne_of_parts (f₁ f₂ : AgentFields) (pre post : List String)
    (a b : String)
    (h1 : profile_key_parts f₁ = pre ++ a :: post)
    (h2 : profile_key_parts f₂ = pre ++ b :: post)
    (hab : a ≠ b) : agent_key f₁ ≠ agent_key f₂ := by
  unfold agent_key
  rw [h1, h2]
  exact pyJoin_single_diff "|" a b hab pre post


/-! ## C7: agent-id stability and sensitivity -/

/-- C7 (amended): with the truncated SHA-256 digest abstracted as the
external hash `h`, two sessions whose profiles agree on every field the
key includes — template, patient pacing, episode density, age range, the
five voice-style dimensions, the modifier multiset (the key sorts it),
persona, the five microstyle sliders and the symptom frequencies —
produce identical `agent_id`s regardless of rng call order elsewhere;
and — the profile-key construction being injective in each single
field — changing any single one of those key fields changes the
`agent_id` whenever `h` is collision-free.  The claim as stated, over
every sampled profile field, is refuted by
`agent_id_sensitivity_counterexample`: the key omits the sampled
`CONTEXT_DOMAINS` and `PERSONAL_BACKGROUND` fields. -/
theorem agent_id_stability_and_sensitivity (h : String → String)
    (hinj : Function.Injective h) :
    (∀ f₁ f₂ : AgentFields,
        f₁.template_id = f₂.template_id → f₁.p_pacing = f₂.p_pacing →
        f₁.density = f₂.density → f₁.age = f₂.age → f₁.trust = f₂.trust →
        f₁.verbosity = f₂.verbosity → f₁.expressiveness = f₂.expressiveness →
        f₁.intellect = f₂.intellect → f₁.p_humor = f₂.p_humor →
        f₁.modifiers.Perm f₂.modifiers → f₁.persona = f₂.persona →
        f₁.d_warmth = f₂.d_warmth → f₁.d_direct = f₂.d_direct →
        f₁.d_pacing = f₂.d_pacing → f₁.d_humor = f₂.d_humor →
        f₁.d_animation = f₂.d_animation →
        (∀ s ∈ DSM_ITEMS, f₁.freq s = f₂.freq s) →
        agent_id h f₁ = agent_id h f₂) ∧
    (∀ f₁ f₂ : AgentFields, SingleFieldChange f₁ f₂ →
        agent_id h f₁ ≠ agent_id h f₂) := by
  constructor
  · intro f₁ f₂ hq0 hq1 hq2 hq3 hq4 hq5 hq6 hq7 hq8 hmods hq10 hq11 hq12 hq13 hq14
      hq15 hfreq
    have hsort : f₁.modifiers.insertionSort (· ≤ ·) =
        f₂.modifiers.insertionSort (· ≤ ·) := by
      refine List.eq_of_perm_of_sorted ?_ (List.sorted_insertionSort _ _)
        (List.sorted_insertionSort _ _)
      exact ((List.perm_insertionSort _ _).trans hmods).trans
        (List.perm_insertionSort _ _).symm
    have hmap : (DSM_ITEMS.insertionSort (· ≤ ·)).map (fun s => s ++ "=" ++ f₁.freq s) =
        (DSM_ITEMS.insertionSort (· ≤ ·)).map (fun s => s ++ "=" ++ f₂.freq s) :=
      List.map_congr_left (fun s hsm => by
        rw [hfreq s ((List.perm_insertionSort _ _).subset hsm)])
    unfold agent_id agent_key profile_key_parts
    rw [hq0, hq1, hq2, hq3, hq4, hq5, hq6, hq7, hq8, hsort, hq10, hq11, hq12, hq13,
      hq14, hq15, hmap]
  · intro f₁ f₂ hC
    have hkey : agent_key f₁ ≠ agent_key f₂ := by
      rcases hC with ⟨v, rfl, hv⟩ |
        ⟨v, rfl, hv⟩ |
        ⟨v, rfl, hv⟩ |
        ⟨v, rfl, hv⟩ |
        ⟨v, rfl, hv⟩ |
        ⟨v, rfl, hv⟩ |
        ⟨v, rfl, hv⟩ |
        ⟨v, rfl, hv⟩ |
        ⟨v, rfl, hv⟩ |
        ⟨v, rfl, hv⟩ |
        ⟨v, rfl, hv⟩ |
        ⟨v, rfl, hv⟩ |
        ⟨v, rfl, hv⟩ |
        ⟨v, rfl, hv⟩ |
        ⟨v, rfl, hv⟩ |
        ⟨v, rfl, hmod1, hmod2, hv⟩ |
        ⟨fr, s, rfl, hs, hne, hagree⟩
      · exact agent_key_ne_of_parts f₁ _
          ([] : List String)
          (["P_PACING=" ++ f₁.p_pacing,
              "DENSITY=" ++ f₁.density,
              "AGE=" ++ f₁.age,
              "TRUST=" ++ f₁.trust,
              "VERBOSITY=" ++ f₁.verbosity,
              "EXPRESSIVENESS=" ++ f₁.expressiveness,
              "INTELLECT=" ++ f₁.intellect,
              "P_HUMOR=" ++ f₁.p_humor,
              "MODS=" ++ pyJoin "," (f₁.modifiers.insertionSort (· ≤ ·)),
              "PERSONA=" ++ f₁.persona,
              "D_WARMTH=" ++ f₁.d_warmth,
              "D_DIRECT=" ++ f₁.d_direct,
              "D_PACING=" ++ f₁.d_pacing,
              "D_HUMOR=" ++ f₁.d_humor,
              "D_ANIMATION=" ++ f₁.d_animation] ++
            (DSM_ITEMS.insertionSort (· ≤ ·)).map (fun s => s ++ "=" ++ f₁.freq s))
          ("TEMPLATE=" ++ f₁.template_id) ("TEMPLATE=" ++ v) rfl rfl
          (string_append_left_ne (Ne.symm hv))
      · exact agent_key_ne_of_parts f₁ _
          ["TEMPLATE=" ++ f₁.template_id]
          (["DENSITY=" ++ f₁.density,
              "AGE=" ++ f₁.age,
              "TRUST=" ++ f₁.trust,
              "VERBOSITY=" ++ f₁.verbosity,
              "EXPRESSIVENESS=" ++ f₁.expressiveness,
              "INTELLECT=" ++ f₁.intellect,
              "P_HUMOR=" ++ f₁.p_humor,
              "MODS=" ++ pyJoin "," (f₁.modifiers.insertionSort (· ≤ ·)),
              "PERSONA=" ++ f₁.persona,
              "D_WARMTH=" ++ f₁.d_warmth,
              "D_DIRECT=" ++ f₁.d_direct,
              "D_PACING=" ++ f₁.d_pacing,
              "D_HUMOR=" ++ f₁.d_humor,
              "D_ANIMATION=" ++ f₁.d_animation] ++
            (DSM_ITEMS.insertionSort (· ≤ ·)).map (fun s => s ++ "=" ++ f₁.freq s))
          ("P_PACING=" ++ f₁.p_pacing) ("P_PACING=" ++ v) rfl rfl
          (string_append_left_ne (Ne.symm hv))
      · exact agent_key_ne_of_parts f₁ _
          ["TEMPLATE=" ++ f₁.template_id,
             "P_PACING=" ++ f₁.p_pacing]
          (["AGE=" ++ f₁.age,
              "TRUST=" ++ f₁.trust,
              "VERBOSITY=" ++ f₁.verbosity,
              "EXPRESSIVENESS=" ++ f₁.expressiveness,
              "INTELLECT=" ++ f₁.intellect,
              "P_HUMOR=" ++ f₁.p_humor,
              "MODS=" ++ pyJoin "," (f₁.modifiers.insertionSort (· ≤ ·)),
              "PERSONA=" ++ f₁.persona,
              "D_WARMTH=" ++ f₁.d_warmth,
              "D_DIRECT=" ++ f₁.d_direct,
              "D_PACING=" ++ f₁.d_pacing,
              "D_HUMOR=" ++ f₁.d_humor,
              "D_ANIMATION=" ++ f₁.d_animation] ++
            (DSM_ITEMS.insertionSort (· ≤ ·)).map (fun s => s ++ "=" ++ f₁.freq s))
          ("DENSITY=" ++ f₁.density) ("DENSITY=" ++ v) rfl rfl
          (string_append_left_ne (Ne.symm hv))
      · exact agent_key_ne_of_parts f₁ _
          ["TEMPLATE=" ++ f₁.template_id,
             "P_PACING=" ++ f₁.p_pacing,
             "DENSITY=" ++ f₁.density]
          (["TRUST=" ++ f₁.trust,
              "VERBOSITY=" ++ f₁.verbosity,
              "EXPRESSIVENESS=" ++ f₁.expressiveness,
              "INTELLECT=" ++ f₁.intellect,
              "P_HUMOR=" ++ f₁.p_humor,
              "MODS=" ++ pyJoin "," (f₁.modifiers.insertionSort (· ≤ ·)),
              "PERSONA=" ++ f₁.persona,
              "D_WARMTH=" ++ f₁.d_warmth,
              "D_DIRECT=" ++ f₁.d_direct,
              "D_PACING=" ++ f₁.d_pacing,
              "D_HUMOR=" ++ f₁.d_humor,
              "D_ANIMATION=" ++ f₁.d_animation] ++
            (DSM_ITEMS.insertionSort (· ≤ ·)).map (fun s => s ++ "=" ++ f₁.freq s))
          ("AGE=" ++ f₁.age) ("AGE=" ++ v) rfl rfl
          (string_append_left_ne (Ne.symm hv))
      · exact agent_key_ne_of_parts f₁ _
          ["TEMPLATE=" ++ f₁.template_id,
             "P_PACING=" ++ f₁.p_pacing,
             "DENSITY=" ++ f₁.density,
             "AGE=" ++ f₁.age]
          (["VERBOSITY=" ++ f₁.verbosity,
              "EXPRESSIVENESS=" ++ f₁.expressiveness,
              "INTELLECT=" ++ f₁.intellect,
              "P_HUMOR=" ++ f₁.p_humor,
              "MODS=" ++ pyJoin "," (f₁.modifiers.insertionSort (· ≤ ·)),
              "PERSONA=" ++ f₁.persona,
              "D_WARMTH=" ++ f₁.d_warmth,
              "D_DIRECT=" ++ f₁.d_direct,
              "D_PACING=" ++ f₁.d_pacing,
              "D_HUMOR=" ++ f₁.d_humor,
              "D_ANIMATION=" ++ f₁.d_animation] ++
            (DSM_ITEMS.insertionSort (· ≤ ·)).map (fun s => s ++ "=" ++ f₁.freq s))
          ("TRUST=" ++ f₁.trust) ("TRUST=" ++ v) rfl rfl
          (string_append_left_ne (Ne.symm hv))
      · exact agent_key_ne_of_parts f₁ _
          ["TEMPLATE=" ++ f₁.template_id,
             "P_PACING=" ++ f₁.p_pacing,
             "DENSITY=" ++ f₁.density,
             "AGE=" ++ f₁.age,
             "TRUST=" ++ f₁.trust]
          (["EXPRESSIVENESS=" ++ f₁.expressiveness,
              "INTELLECT=" ++ f₁.intellect,
              "P_HUMOR=" ++ f₁.p_humor,
              "MODS=" ++ pyJoin "," (f₁.modifiers.insertionSort (· ≤ ·)),
              "PERSONA=" ++ f₁.persona,
              "D_WARMTH=" ++ f₁.d_warmth,
              "D_DIRECT=" ++ f₁.d_direct,
              "D_PACING=" ++ f₁.d_pacing,
              "D_HUMOR=" ++ f₁.d_humor,
              "D_ANIMATION=" ++ f₁.d_animation] ++
            (DSM_ITEMS.insertionSort (· ≤ ·)).map (fun s => s ++ "=" ++ f₁.freq s))
          ("VERBOSITY=" ++ f₁.verbosity) ("VERBOSITY=" ++ v) rfl rfl
          (string_append_left_ne (Ne.symm hv))
      · exact agent_key_ne_of_parts f₁ _
          ["TEMPLATE=" ++ f₁.template_id,
             "P_PACING=" ++ f₁.p_pacing,
             "DENSITY=" ++ f₁.density,
             "AGE=" ++ f₁.age,
             "TRUST=" ++ f₁.trust,
             "VERBOSITY=" ++ f₁.verbosity]
          (["INTELLECT=" ++ f₁.intellect,
              "P_HUMOR=" ++ f₁.p_humor,
              "MODS=" ++ pyJoin "," (f₁.modifiers.insertionSort (· ≤ ·)),
              "PERSONA=" ++ f₁.persona,
              "D_WARMTH=" ++ f₁.d_warmth,
              "D_DIRECT=" ++ f₁.d_direct,
              "D_PACING=" ++ f₁.d_pacing,
              "D_HUMOR=" ++ f₁.d_humor,
              "D_ANIMATION=" ++ f₁.d_animation] ++
            (DSM_ITEMS.insertionSort (· ≤ ·)).map (fun s => s ++ "=" ++ f₁.freq s))
          ("EXPRESSIVENESS=" ++ f₁.expressiveness) ("EXPRESSIVENESS=" ++ v) rfl rfl
          (string_append_left_ne (Ne.symm hv))
      · exact agent_key_ne_of_parts f₁ _
          ["TEMPLATE=" ++ f₁.template_id,
             "P_PACING=" ++ f₁.p_pacing,
             "DENSITY=" ++ f₁.density,
             "AGE=" ++ f₁.age,
             "TRUST=" ++ f₁.trust,
             "VERBOSITY=" ++ f₁.verbosity,
             "EXPRESSIVENESS=" ++ f₁.expressiveness]
          (["P_HUMOR=" ++ f₁.p_humor,
              "MODS=" ++ pyJoin "," (f₁.modifiers.insertionSort (· ≤ ·)),
              "PERSONA=" ++ f₁.persona,
              "D_WARMTH=" ++ f₁.d_warmth,
              "D_DIRECT=" ++ f₁.d_direct,
              "D_PACING=" ++ f₁.d_pacing,
              "D_HUMOR=" ++ f₁.d_humor,
              "D_ANIMATION=" ++ f₁.d_animation] ++
            (DSM_ITEMS.insertionSort (· ≤ ·)).map (fun s => s ++ "=" ++ f₁.freq s))
          ("INTELLECT=" ++ f₁.intellect) ("INTELLECT=" ++ v) rfl rfl
          (string_append_left_ne (Ne.symm hv))
      · exact agent_key_ne_of_parts f₁ _
          ["TEMPLATE=" ++ f₁.template_id,
             "P_PACING=" ++ f₁.p_pacing,
             "DENSITY=" ++ f₁.density,
             "AGE=" ++ f₁.age,
             "TRUST=" ++ f₁.trust,
             "VERBOSITY=" ++ f₁.verbosity,
             "EXPRESSIVENESS=" ++ f₁.expressiveness,
             "INTELLECT=" ++ f₁.intellect]
          (["MODS=" ++ pyJoin "," (f₁.modifiers.insertionSort (· ≤ ·)),
              "PERSONA=" ++ f₁.persona,
              "D_WARMTH=" ++ f₁.d_warmth,
              "D_DIRECT=" ++ f₁.d_direct,
              "D_PACING=" ++ f₁.d_pacing,
              "D_HUMOR=" ++ f₁.d_humor,
              "D_ANIMATION=" ++ f₁.d_animation] ++
            (DSM_ITEMS.insertionSort (· ≤ ·)).map (fun s => s ++ "=" ++ f₁.freq s))
          ("P_HUMOR=" ++ f₁.p_humor) ("P_HUMOR=" ++ v) rfl rfl
          (string_append_left_ne (Ne.symm hv))
      · exact agent_key_ne_of_parts f₁ _
          ["TEMPLATE=" ++ f₁.template_id,
             "P_PACING=" ++ f₁.p_pacing,
             "DENSITY=" ++ f₁.density,
             "AGE=" ++ f₁.age,
             "TRUST=" ++ f₁.trust,
             "VERBOSITY=" ++ f₁.verbosity,
             "EXPRESSIVENESS=" ++ f₁.expressiveness,
             "INTELLECT=" ++ f₁.intellect,
             "P_HUMOR=" ++ f₁.p_humor,
             "MODS=" ++ pyJoin "," (f₁.modifiers.insertionSort (· ≤ ·))]
          (["D_WARMTH=" ++ f₁.d_warmth,
              "D_DIRECT=" ++ f₁.d_direct,
              "D_PACING=" ++ f₁.d_pacing,
              "D_HUMOR=" ++ f₁.d_humor,
              "D_ANIMATION=" ++ f₁.d_animation] ++
            (DSM_ITEMS.insertionSort (· ≤ ·)).map (fun s => s ++ "=" ++ f₁.freq s))
          ("PERSONA=" ++ f₁.persona) ("PERSONA=" ++ v) rfl rfl
          (string_append_left_ne (Ne.symm hv))
      · exact agent_key_ne_of_parts f₁ _
          ["TEMPLATE=" ++ f₁.template_id,
             "P_PACING=" ++ f₁.p_pacing,
             "DENSITY=" ++ f₁.density,
             "AGE=" ++ f₁.age,
             "TRUST=" ++ f₁.trust,
             "VERBOSITY=" ++ f₁.verbosity,
             "EXPRESSIVENESS=" ++ f₁.expressiveness,
             "INTELLECT=" ++ f₁.intellect,
             "P_HUMOR=" ++ f₁.p_humor,
             "MODS=" ++ pyJoin "," (f₁.modifiers.insertionSort (· ≤ ·)),
             "PERSONA=" ++ f₁.persona]
          (["D_DIRECT=" ++ f₁.d_direct,
              "D_PACING=" ++ f₁.d_pacing,
              "D_HUMOR=" ++ f₁.d_humor,
              "D_ANIMATION=" ++ f₁.d_animation] ++
            (DSM_ITEMS.insertionSort (· ≤ ·)).map (fun s => s ++ "=" ++ f₁.freq s))
          ("D_WARMTH=" ++ f₁.d_warmth) ("D_WARMTH=" ++ v) rfl rfl
          (string_append_left_ne (Ne.symm hv))
      · exact agent_key_ne_of_parts f₁ _
          ["TEMPLATE=" ++ f₁.template_id,
             "P_PACING=" ++ f₁.p_pacing,
             "DENSITY=" ++ f₁.density,
             "AGE=" ++ f₁.age,
             "TRUST=" ++ f₁.trust,
             "VERBOSITY=" ++ f₁.verbosity,
             "EXPRESSIVENESS=" ++ f₁.expressiveness,
             "INTELLECT=" ++ f₁.intellect,
             "P_HUMOR=" ++ f₁.p_humor,
             "MODS=" ++ pyJoin "," (f₁.modifiers.insertionSort (· ≤ ·)),
             "PERSONA=" ++ f₁.persona,
             "D_WARMTH=" ++ f₁.d_warmth]
          (["D_PACING=" ++ f₁.d_pacing,
              "D_HUMOR=" ++ f₁.d_humor,
              "D_ANIMATION=" ++ f₁.d_animation] ++
            (DSM_ITEMS.insertionSort (· ≤ ·)).map (fun s => s ++ "=" ++ f₁.freq s))
          ("D_DIRECT=" ++ f₁.d_direct) ("D_DIRECT=" ++ v) rfl rfl
          (string_append_left_ne (Ne.symm hv))
      · exact agent_key_ne_of_parts f₁ _
          ["TEMPLATE=" ++ f₁.template_id,
             "P_PACING=" ++ f₁.p_pacing,
             "DENSITY=" ++ f₁.density,
             "AGE=" ++ f₁.age,
             "TRUST=" ++ f₁.trust,
             "VERBOSITY=" ++ f₁.verbosity,
             "EXPRESSIVENESS=" ++ f₁.expressiveness,
             "INTELLECT=" ++ f₁.intellect,
             "P_HUMOR=" ++ f₁.p_humor,
             "MODS=" ++ pyJoin "," (f₁.modifiers.insertionSort (· ≤ ·)),
             "PERSONA=" ++ f₁.persona,
             "D_WARMTH=" ++ f₁.d_warmth,
             "D_DIRECT=" ++ f₁.d_direct]
          (["D_HUMOR=" ++ f₁.d_humor,
              "D_ANIMATION=" ++ f₁.d_animation] ++
            (DSM_ITEMS.insertionSort (· ≤ ·)).map (fun s => s ++ "=" ++ f₁.freq s))
          ("D_PACING=" ++ f₁.d_pacing) ("D_PACING=" ++ v) rfl rfl
          (string_append_left_ne (Ne.symm hv))
      · exact agent_key_ne_of_parts f₁ _
          ["TEMPLATE=" ++ f₁.template_id,
             "P_PACING=" ++ f₁.p_pacing,
             "DENSITY=" ++ f₁.density,
             "AGE=" ++ f₁.age,
             "TRUST=" ++ f₁.trust,
             "VERBOSITY=" ++ f₁.verbosity,
             "EXPRESSIVENESS=" ++ f₁.expressiveness,
             "INTELLECT=" ++ f₁.intellect,
             "P_HUMOR=" ++ f₁.p_humor,
             "MODS=" ++ pyJoin "," (f₁.modifiers.insertionSort (· ≤ ·)),
             "PERSONA=" ++ f₁.persona,
             "D_WARMTH=" ++ f₁.d_warmth,
             "D_DIRECT=" ++ f₁.d_direct,
             "D_PACING=" ++ f₁.d_pacing]
          (["D_ANIMATION=" ++ f₁.d_animation] ++
            (DSM_ITEMS.insertionSort (· ≤ ·)).map (fun s => s ++ "=" ++ f₁.freq s))
          ("D_HUMOR=" ++ f₁.d_humor) ("D_HUMOR=" ++ v) rfl rfl
          (string_append_left_ne (Ne.symm hv))
      · exact agent_key_ne_of_parts f₁ _
          ["TEMPLATE=" ++ f₁.template_id,
             "P_PACING=" ++ f₁.p_pacing,
             "DENSITY=" ++ f₁.density,
             "AGE=" ++ f₁.age,
             "TRUST=" ++ f₁.trust,
             "VERBOSITY=" ++ f₁.verbosity,
             "EXPRESSIVENESS=" ++ f₁.expressiveness,
             "INTELLECT=" ++ f₁.intellect,
             "P_HUMOR=" ++ f₁.p_humor,
             "MODS=" ++ pyJoin "," (f₁.modifiers.insertionSort (· ≤ ·)),
             "PERSONA=" ++ f₁.persona,
             "D_WARMTH=" ++ f₁.d_warmth,
             "D_DIRECT=" ++ f₁.d_direct,
             "D_PACING=" ++ f₁.d_pacing,
             "D_HUMOR=" ++ f₁.d_humor]
          (([] : List String) ++
            (DSM_ITEMS.insertionSort (· ≤ ·)).map (fun s => s ++ "=" ++ f₁.freq s))
          ("D_ANIMATION=" ++ f₁.d_animation) ("D_ANIMATION=" ++ v) rfl rfl
          (string_append_left_ne (Ne.symm hv))
      · refine agent_key_ne_of_parts f₁ _
          ["TEMPLATE=" ++ f₁.template_id,
             "P_PACING=" ++ f₁.p_pacing,
             "DENSITY=" ++ f₁.density,
             "AGE=" ++ f₁.age,
             "TRUST=" ++ f₁.trust,
             "VERBOSITY=" ++ f₁.verbosity,
             "EXPRESSIVENESS=" ++ f₁.expressiveness,
             "INTELLECT=" ++ f₁.intellect,
             "P_HUMOR=" ++ f₁.p_humor]
          (["PERSONA=" ++ f₁.persona,
              "D_WARMTH=" ++ f₁.d_warmth,
              "D_DIRECT=" ++ f₁.d_direct,
              "D_PACING=" ++ f₁.d_pacing,
              "D_HUMOR=" ++ f₁.d_humor,
              "D_ANIMATION=" ++ f₁.d_animation] ++
            (DSM_ITEMS.insertionSort (· ≤ ·)).map (fun s => s ++ "=" ++ f₁.freq s))
          ("MODS=" ++ pyJoin "," (f₁.modifiers.insertionSort (· ≤ ·)))
          ("MODS=" ++ pyJoin "," (v.insertionSort (· ≤ ·))) rfl rfl ?_
        apply string_append_left_ne
        intro hc
        apply hv
        have hml1 : ∀ m ∈ f₁.modifiers.insertionSort (· ≤ ·), ModifierLike m :=
          fun m hm => hmod1 m ((List.perm_insertionSort _ _).subset hm)
        have hml2 : ∀ m ∈ v.insertionSort (· ≤ ·), ModifierLike m :=
          fun m hm => hmod2 m ((List.perm_insertionSort _ _).subset hm)
        exact (pyJoin_comma_inj _ _ hml1 hml2 hc).symm
      · have hperm := List.perm_insertionSort (· ≤ ·) DSM_ITEMS
        have hssort : s ∈ DSM_ITEMS.insertionSort (· ≤ ·) := hperm.mem_iff.mpr hs
        have hsnodup : (DSM_ITEMS.insertionSort (· ≤ ·)).Nodup :=
          hperm.nodup_iff.mpr (by decide)
        obtain ⟨pre, post, hmq1, hmq2⟩ := map_single_diff
          (fun t => t ++ "=" ++ f₁.freq t) (fun t => t ++ "=" ++ fr t)
          (DSM_ITEMS.insertionSort (· ≤ ·)) s hssort hsnodup
          (fun t ht hts => by
            show t ++ "=" ++ f₁.freq t = t ++ "=" ++ fr t
            rw [hagree t (hperm.subset ht) hts])
        refine agent_key_ne_of_parts f₁ _
          (["TEMPLATE=" ++ f₁.template_id,
             "P_PACING=" ++ f₁.p_pacing,
             "DENSITY=" ++ f₁.density,
             "AGE=" ++ f₁.age,
             "TRUST=" ++ f₁.trust,
             "VERBOSITY=" ++ f₁.verbosity,
             "EXPRESSIVENESS=" ++ f₁.expressiveness,
             "INTELLECT=" ++ f₁.intellect,
             "P_HUMOR=" ++ f₁.p_humor,
             "MODS=" ++ pyJoin "," (f₁.modifiers.insertionSort (· ≤ ·)),
             "PERSONA=" ++ f₁.persona,
             "D_WARMTH=" ++ f₁.d_warmth,
             "D_DIRECT=" ++ f₁.d_direct,
             "D_PACING=" ++ f₁.d_pacing,
             "D_HUMOR=" ++ f₁.d_humor,
             "D_ANIMATION=" ++ f₁.d_animation] ++ pre) post
          (s ++ "=" ++ f₁.freq s) (s ++ "=" ++ fr s) ?_ ?_
          (string_append_left_ne (Ne.symm hne))
        · have hbase : profile_key_parts f₁ =
              ["TEMPLATE=" ++ f₁.template_id,
               "P_PACING=" ++ f₁.p_pacing,
               "DENSITY=" ++ f₁.density,
               "AGE=" ++ f₁.age,
               "TRUST=" ++ f₁.trust,
               "VERBOSITY=" ++ f₁.verbosity,
               "EXPRESSIVENESS=" ++ f₁.expressiveness,
               "INTELLECT=" ++ f₁.intellect,
               "P_HUMOR=" ++ f₁.p_humor,
               "MODS=" ++ pyJoin "," (f₁.modifiers.insertionSort (· ≤ ·)),
               "PERSONA=" ++ f₁.persona,
               "D_WARMTH=" ++ f₁.d_warmth,
               "D_DIRECT=" ++ f₁.d_direct,
               "D_PACING=" ++ f₁.d_pacing,
               "D_HUMOR=" ++ f₁.d_humor,
               "D_ANIMATION=" ++ f₁.d_animation] ++
                (DSM_ITEMS.insertionSort (· ≤ ·)).map (fun s => s ++ "=" ++ f₁.freq s) := rfl
          rw [hbase, hmq1, ← List.append_assoc]
        · have hbase : profile_key_parts { f₁ with freq := fr } =
              ["TEMPLATE=" ++ f₁.template_id,
               "P_PACING=" ++ f₁.p_pacing,
               "DENSITY=" ++ f₁.density,
               "AGE=" ++ f₁.age,
               "TRUST=" ++ f₁.trust,
               "VERBOSITY=" ++ f₁.verbosity,
               "EXPRESSIVENESS=" ++ f₁.expressiveness,
               "INTELLECT=" ++ f₁.intellect,
               "P_HUMOR=" ++ f₁.p_humor,
               "MODS=" ++ pyJoin "," (f₁.modifiers.insertionSort (· ≤ ·)),
               "PERSONA=" ++ f₁.persona,
               "D_WARMTH=" ++ f₁.d_warmth,
               "D_DIRECT=" ++ f₁.d_direct,
               "D_PACING=" ++ f₁.d_pacing,
               "D_HUMOR=" ++ f₁.d_humor,
               "D_ANIMATION=" ++ f₁.d_animation] ++
                (DSM_ITEMS.insertionSort (· ≤ ·)).map (fun t => t ++ "=" ++ fr t) := rfl
          rw [hbase, hmq2, ← List.append_assoc]
    intro hc
    apply hkey
    apply hinj
    unfold agent_id at hc
    exact string_append_left_cancel hc

/-- Witness for C7: the injectivity hypothesis discharged with the
identity hash, at two concrete field records differing only in the
sampled `trust` field. -/
theorem agent_id_stability_and_sensitivity_witness :
    agent_id (fun x => x)
      { template_id := "NEUROTICISM_HIGH", p_pacing := "MED", density := "MED",
        age := "25-29", trust := "neutral", verbosity := "moderate",
        expressiveness := "balanced", intellect := "moderate-functioning",
        p_humor := "none", modifiers := ["ruminative"], persona := "warm_validating",
        d_warmth := "med", d_direct := "med", d_pacing := "med", d_humor := "none",
        d_animation := "med", freq := fun _ => "NONE" } ≠
    agent_id (fun x => x)
      { template_id := "NEUROTICISM_HIGH", p_pacing := "MED", density := "MED",
        age := "25-29", trust := "open", verbosity := "moderate",
        expressiveness := "balanced", intellect := "moderate-functioning",
        p_humor := "none", modifiers := ["ruminative"], persona := "warm_validating",
        d_warmth := "med", d_direct := "med", d_pacing := "med", d_humor := "none",
        d_animation := "med", freq := fun _ => "NONE" } :=
  (agent_id_stability_and_sensitivity (fun x => x) (fun _ _ hab => hab)).2 _ _
    (Or.inr (Or.inr (Or.inr (Or.inr (Or.inl ⟨"open", rfl, by decide⟩)))))




/-- Counterexample to C7 as stated: the profile key built by
`run_patient_doctor_session` (lines 549-575) omits the sampled
`CONTEXT_DOMAINS` profile field (and likewise `PERSONAL_BACKGROUND`), so
two sampled profiles that differ only in the context-domains field map to
the same `AgentFields` record — and hence to the same `agent_id` for
every hash — contradicting "changing any single sampled profile field
changes the agent_id hash". -/
theorem agent_id_sensitivity_counterexample :
    ({ template_id := "NEUROTICISM_HIGH",
       template := big5_template_get "NEUROTICISM_HIGH",
       modifiers := ["ruminative"],
       pacing := "MED",
       context_domains := [],
       episode_density := "MED",
       voice_style := { verbosity := "moderate", expressiveness := "balanced", trust := "neutral", intellect := "moderate-functioning", humor := "none" },
       personal_background := [("work_role", "employed")],
       age_range := "25-29",
       emph_intensity := fun _ => "MED",
       extra_elevated := [],
       depression_profile := fun _ => "NONE",
       life_background := none } : PatientProfile).context_domains ≠
    ({ template_id := "NEUROTICISM_HIGH",
       template := big5_template_get "NEUROTICISM_HIGH",
       modifiers := ["ruminative"],
       pacing := "MED",
       context_domains := ["work/role strain"],
       episode_density := "MED",
       voice_style := { verbosity := "moderate", expressiveness := "balanced", trust := "neutral", intellect := "moderate-functioning", humor := "none" },
       personal_background := [("work_role", "employed")],
       age_range := "25-29",
       emph_intensity := fun _ => "MED",
       extra_elevated := [],
       depression_profile := fun _ => "NONE",
       life_background := none } : PatientProfile).context_domains ∧
    agent_fields_of_profile
      { template_id := "NEUROTICISM_HIGH",
        template := big5_template_get "NEUROTICISM_HIGH",
        modifiers := ["ruminative"],
        pacing := "MED",
        context_domains := [],
        episode_density := "MED",
        voice_style := { verbosity := "moderate", expressiveness := "balanced", trust := "neutral", intellect := "moderate-functioning", humor := "none" },
        personal_background := [("work_role", "employed")],
        age_range := "25-29",
        emph_intensity := fun _ => "MED",
        extra_elevated := [],
        depression_profile := fun _ => "NONE",
        life_background := none }
      "warm_validating" "med" "med" "med" "none" "med" =
    agent_fields_of_profile
      { template_id := "NEUROTICISM_HIGH",
        template := big5_template_get "NEUROTICISM_HIGH",
        modifiers := ["ruminative"],
        pacing := "MED",
        context_domains := ["work/role strain"],
        episode_density := "MED",
        voice_style := { verbosity := "moderate", expressiveness := "balanced", trust := "neutral", intellect := "moderate-functioning", humor := "none" },
        personal_background := [("work_role", "employed")],
        age_range := "25-29",
        emph_intensity := fun _ => "MED",
        extra_elevated := [],
        depression_profile := fun _ => "NONE",
        life_background := none }
      "warm_validating" "med" "med" "med" "none" "med" ∧
    agent_id (fun x => x)
      (agent_fields_of_profile
        { template_id := "NEUROTICISM_HIGH",
          template := big5_template_get "NEUROTICISM_HIGH",
          modifiers := ["ruminative"],
          pacing := "MED",
          context_domains := [],
          episode_density := "MED",
          voice_style := { verbosity := "moderate", expressiveness := "balanced", trust := "neutral", intellect := "moderate-functioning", humor := "none" },
          personal_background := [("work_role", "employed")],
          age_range := "25-29",
          emph_intensity := fun _ => "MED",
          extra_elevated := [],
          depression_profile := fun _ => "NONE",
          life_background := none }
        "warm_validating" "med" "med" "med" "none" "med") =
    agent_id (fun x => x)
      (agent_fields_of_profile
        { template_id := "NEUROTICISM_HIGH",
          template := big5_template_get "NEUROTICISM_HIGH",
          modifiers := ["ruminative"],
          pacing := "MED",
          context_domains := ["work/role strain"],
          episode_density := "MED",
          voice_style := { verbosity := "moderate", expressiveness := "balanced", trust := "neutral", intellect := "moderate-functioning", humor := "none" },
          personal_background := [("work_role", "employed")],
          age_range := "25-29",
          emph_intensity := fun _ => "MED",
          extra_elevated := [],
          depression_profile := fun _ => "NONE",
          life_background := none }
        "warm_validating" "med" "med" "med" "none" "med") :=
  ⟨by decide, rfl, rfl⟩
